import Mathlib

/-!
Post views: like toggling and the delete confirmation gate; profile forms

A shallow embedding of the four page components that display posts

* `src/pages/Home/Dashboard.jsx`
* `src/pages/Posts/AllPosts.jsx`
* `src/pages/Posts/SinglePost.jsx`
* `src/pages/User/UserProfile.jsx`

and of the two profile edit forms

* `src/pages/Alumni/AlumniProfile.jsx`
* `src/pages/Student/StudentProfile.jsx`

Each component is a record of the state it holds (its own `useState` cells and
the state its data hook hands it) together with one Lean function per handler.
An `async` handler with one `await` is split at the suspension point into a
`...Start` part (everything up to and including the call that is awaited) and a
`...Resume` part (everything after it, given the outcome of the call); the
handler run without interleaving is the composition of the two.

The calls a component makes to its collaborators (request service, hook
mutators, console, router) are recorded, in order, in the `log` field.
-/

namespace PostViews

/-- A post identity as the JavaScript value the handlers receive: a number or a string. -/
inductive PostId where
  | num (n : Int)
  | str (s : String)
  deriving DecidableEq, Repr

/-- JavaScript truthiness of an identity: `0` and `""` are falsy. -/
def PostId.truthy : PostId → Bool
  | .num n => n != 0
  | .str s => s != ""

/-- The Post record of the data model. -/
structure Post where
  id : PostId
  authorId : PostId
  body : String
  createdAt : String
  likeCount : Int
  isLikedByCurrentUser : Bool
  replyCount : Int
  deriving DecidableEq, Repr

/-- How an awaited call ends: it resolves, or it fails (the awaiting `await` throws). -/
inductive Outcome where
  | resolved
  | failed
  deriving DecidableEq, Repr

/-- How an `async` handler settles: its promise is fulfilled, or it rejects
because a failure left the handler uncaught. -/
inductive Settled where
  | fulfilled
  | rejected
  deriving DecidableEq, Repr

/-- The routes the handlers navigate to: `ROUTES.ALL_POSTS`, the page of one post
under it, and `ROUTES.ALUMNI_LIST`. -/
inductive Route where
  | allPosts
  | post (id : PostId)
  | alumniList
  deriving DecidableEq, Repr

/-- The draft the create-post modal submits; the handlers pass it on unread. -/
structure PostDraft where
  body : String
  deriving DecidableEq, Repr

/-- The calls a component makes to its collaborators. `likePost`, `unlikePost`,
`deletePost` and `createPost` are the calls the handlers await, each ending in the remote
call of that name (for the single-post view the hook is bound to its post, the identity
is the bound one);
`removePost` and `updatePostLikes` are the dashboard hook's cache mutators;
`consoleError` is `console.error`, `navigate` the router. -/
inductive Effect where
  | likePost (id : PostId)
  | unlikePost (id : PostId)
  | deletePost (id : PostId)
  | removePost (id : PostId)
  | updatePostLikes (id : PostId) (isLiked : Bool)
  | consoleError (msg : String)
  | navigate (route : Route)
  | createPost (data : PostDraft)
  deriving DecidableEq, Repr

/-- The effects appended to a log between an earlier and a later state of it. -/
def issuedSince (before after : List Effect) : List Effect :=
  after.drop before.length

/-- Modelled from the spec: `removePost` of `hooks/useDashboard`, which is not among the
sources. It is the cache operation `remove(id)`: "deletes by identity, no-op if absent". -/
def removePost (id : PostId) (posts : List Post) : List Post :=
  posts.filter (fun p => p.id != id)

/-- Modelled from the spec: `updatePostLikes` of `hooks/useDashboard`, which is not among
the sources. It is the toggle-like patch: `patch(id, fields)` is "a shallow field merge
and is a no-op if the identity is absent", the fields being the new liked flag and the
`likeCount` moved by the delta "`+1` if newly liked, `-1` if newly unliked". -/
def updatePostLikes (id : PostId) (isLiked : Bool) (posts : List Post) : List Post :=
  posts.map (fun p =>
    if p.id = id then
      { p with isLikedByCurrentUser := isLiked,
               likeCount := p.likeCount + (if isLiked then 1 else -1) }
    else p)

/-! ## Dashboard (`src/pages/Home/Dashboard.jsx`) -/

namespace Dashboard

/-- State of the dashboard: `posts`, `postsLoading` come from `useDashboard()`, the four
booleans/target are the component's `useState` cells. The `likePost`, `unlikePost` and
`deletePost` it calls come from a separate `usePosts()` instance, whose own collection the
dashboard does not display. -/
structure State where
  posts : List Post
  postsLoading : Bool
  createPostOpen : Bool
  deleteDialogOpen : Bool
  postToDelete : Option PostId
  deleting : Bool
  log : List Effect
  deriving DecidableEq, Repr

/-- What the JSX of the dashboard reads from the state: the list handed to `MyPosts`,
the `open` flags of the two modals and the `loading` flag of the confirm dialog. -/
structure Rendered where
  posts : List Post
  postsLoading : Bool
  createPostOpen : Bool
  deleteDialogOpen : Bool
  deleting : Bool
  deriving DecidableEq, Repr

/-- The projection of the state that the dashboard renders. -/
def render (s : State) : Rendered :=
  { posts := s.posts, postsLoading := s.postsLoading, createPostOpen := s.createPostOpen,
    deleteDialogOpen := s.deleteDialogOpen, deleting := s.deleting }

/-- Handler `handleLike(postId, isLiked)` up to its `await`: the remote call is issued,
nothing else. -/
def handleLikeStart (postId : PostId) (isLiked : Bool) (s : State) : State :=
  if isLiked then
    { s with log := s.log ++ [Effect.unlikePost postId] }
  else
    { s with log := s.log ++ [Effect.likePost postId] }

/-- Handler `handleLike(postId, isLiked)` after its `await`: when the call failed the handler
rejects at the `await`; when it resolved, `updatePostLikes(postId, !isLiked)` is applied. -/
def handleLikeResume (postId : PostId) (isLiked : Bool) (o : Outcome) (s : State) :
    State × Settled :=
  match o with
  | .failed => (s, .rejected)
  | .resolved =>
    if isLiked then
      ({ s with posts := updatePostLikes postId false s.posts,
                log := s.log ++ [Effect.updatePostLikes postId false] }, .fulfilled)
    else
      ({ s with posts := updatePostLikes postId true s.posts,
                log := s.log ++ [Effect.updatePostLikes postId true] }, .fulfilled)

/-- Handler `handleLike(postId, isLiked)` run to completion with nothing interleaved. -/
def handleLike (postId : PostId) (isLiked : Bool) (o : Outcome) (s : State) :
    State × Settled :=
  handleLikeResume postId isLiked o (handleLikeStart postId isLiked s)

/-- Handler `handleDeleteClick(postId)`. -/
def handleDeleteClick (postId : PostId) (s : State) : State :=
  { s with postToDelete := some postId, deleteDialogOpen := true }

/-- Handler `handleConfirmDelete()` up to its `await`: returns at once when `!postToDelete`;
otherwise sets `deleting` and issues `deletePost(postToDelete)`. The second component is
the target captured by the invocation, `none` when the handler has already returned. -/
def handleConfirmDeleteStart (s : State) : State × Option PostId :=
  match s.postToDelete with
  | none => (s, none)
  | some t =>
    if t.truthy then
      ({ s with deleting := true, log := s.log ++ [Effect.deletePost t] }, some t)
    else (s, none)

/-- Handler `handleConfirmDelete()` after its `await`, for the captured target `t`: on success
`removePost(t)`, dialog closed, target cleared; on failure `console.error`; in both cases
`finally` resets `deleting`. The handler catches the failure, so it is always fulfilled. -/
def handleConfirmDeleteResume (t : PostId) (o : Outcome) (s : State) : State × Settled :=
  match o with
  | .resolved =>
    ({ s with posts := removePost t s.posts, deleteDialogOpen := false,
              postToDelete := none, deleting := false,
              log := s.log ++ [Effect.removePost t] }, .fulfilled)
  | .failed =>
    ({ s with deleting := false,
              log := s.log ++ [Effect.consoleError "Delete failed:"] }, .fulfilled)

/-- Handler `handleConfirmDelete()` run to completion with nothing interleaved; `o` is the outcome
of the remote delete when one is issued. -/
def handleConfirmDelete (o : Outcome) (s : State) : State × Settled :=
  match handleConfirmDeleteStart s with
  | (s1, none) => (s1, .fulfilled)
  | (s1, some t) => handleConfirmDeleteResume t o s1

/-- Handler `handleCancelDelete()`. -/
def handleCancelDelete (s : State) : State :=
  { s with deleteDialogOpen := false, postToDelete := none }

end Dashboard

/-- Modelled from the spec: the cache side of `likePost` and `unlikePost` of
`hooks/usePosts` and `hooks/usePost` (neither is among the sources) at the moment the
call is made. These hooks own the cache that the full list and the single-post view
display, so for those two views they are the Optimistic Mutation Executor of section
4.2, step 2: "compute the inverse boolean and the `likeCount` delta (`+1` if newly liked,
`-1` if newly unliked); apply via `patch` immediately". `newLiked` is the flag the call
moves to: true for `likePost`, false for `unlikePost`. The lock of step 1 decides only
whether a second call made while one is in flight is accepted; the definition describes
an accepted call. The dashboard and the profile feed display the state of another hook
(`useDashboard`, `useUserProfile`), which these calls do not reach. -/
def executorLikeIssued (postId : PostId) (newLiked : Bool) (posts : List Post) :
    List Post :=
  updatePostLikes postId newLiked posts

/-- Modelled from the spec: the cache side of `likePost` and `unlikePost` of
`hooks/usePosts` and `hooks/usePost` (neither is among the sources) once the remote call
has settled, steps 4 and 5 of section 4.2: on success "leave the optimistic state as
final truth"; on failure "apply the exact inverse patch to restore the pre-mutation
`isLikedByCurrentUser`/`likeCount`", the inverse of the patch to `newLiked` being the
patch back to its negation. -/
def executorLikeSettled (postId : PostId) (newLiked : Bool) (o : Outcome)
    (posts : List Post) : List Post :=
  match o with
  | .resolved => posts
  | .failed => updatePostLikes postId (!newLiked) posts

/-- Modelled from the spec: the cache side of `deletePost` of `hooks/usePosts` and
`hooks/usePost` (neither is among the sources) once the remote call has settled, section
4.2: "the remote delete is awaited; only on success is `remove` applied to the cache; on
failure the entity remains". -/
def executorDeleteSettled (postId : PostId) (o : Outcome) (posts : List Post) :
    List Post :=
  match o with
  | .resolved => removePost postId posts
  | .failed => posts

/-- A cache operation on the cache of the single-post view, which holds one post or
none. -/
def onSinglePost (f : List Post → List Post) (post : Option Post) : Option Post :=
  (f post.toList).head?

/-! ## Full list (`src/pages/Posts/AllPosts.jsx`) -/

namespace AllPosts

/-- State of the full list: `posts`, `loading`, `error` come from `usePosts()`, the same
hook instance whose `likePost`, `unlikePost`, `deletePost` the handlers await. -/
structure State where
  posts : List Post
  loading : Bool
  error : Option String
  createModalOpen : Bool
  deleteDialogOpen : Bool
  postToDelete : Option PostId
  deleting : Bool
  log : List Effect
  deriving DecidableEq, Repr

/-- What the JSX of the full list reads from the state. -/
structure Rendered where
  posts : List Post
  loading : Bool
  error : Option String
  createModalOpen : Bool
  deleteDialogOpen : Bool
  deleting : Bool
  deriving DecidableEq, Repr

/-- The projection of the state that the full list renders. -/
def render (s : State) : Rendered :=
  { posts := s.posts, loading := s.loading, error := s.error,
    createModalOpen := s.createModalOpen, deleteDialogOpen := s.deleteDialogOpen,
    deleting := s.deleting }

/-- Handler `handleLike(postId, isLiked)` up to its `await`: the matching call of the hook
is made, and the hook patches its cache at once. -/
def handleLikeStart (postId : PostId) (isLiked : Bool) (s : State) : State :=
  if isLiked then
    { s with posts := executorLikeIssued postId false s.posts,
             log := s.log ++ [Effect.unlikePost postId] }
  else
    { s with posts := executorLikeIssued postId true s.posts,
             log := s.log ++ [Effect.likePost postId] }

/-- Handler `handleLike(postId, isLiked)` after its `await`: the handler has no statement
left; it rejects when the call failed. The hook settles its cache. -/
def handleLikeResume (postId : PostId) (isLiked : Bool) (o : Outcome) (s : State) :
    State × Settled :=
  ({ s with posts := executorLikeSettled postId (!isLiked) o s.posts },
   match o with
   | .resolved => .fulfilled
   | .failed => .rejected)

/-- Handler `handleLike(postId, isLiked)` run to completion with nothing interleaved. -/
def handleLike (postId : PostId) (isLiked : Bool) (o : Outcome) (s : State) :
    State × Settled :=
  handleLikeResume postId isLiked o (handleLikeStart postId isLiked s)

/-- Handler `handleDeleteClick(postId)`. -/
def handleDeleteClick (postId : PostId) (s : State) : State :=
  { s with postToDelete := some postId, deleteDialogOpen := true }

/-- Handler `handleConfirmDelete()` up to its `await`; the second component is the captured
target, `none` when the handler returned at `if (!postToDelete) return`. -/
def handleConfirmDeleteStart (s : State) : State × Option PostId :=
  match s.postToDelete with
  | none => (s, none)
  | some t =>
    if t.truthy then
      ({ s with deleting := true, log := s.log ++ [Effect.deletePost t] }, some t)
    else (s, none)

/-- Handler `handleConfirmDelete()` after its `await`: on success dialog closed and target
cleared; on failure `console.error`; `finally` resets `deleting`. -/
def handleConfirmDeleteResume (t : PostId) (o : Outcome) (s : State) : State × Settled :=
  match o with
  | .resolved =>
    ({ s with posts := executorDeleteSettled t Outcome.resolved s.posts,
              deleteDialogOpen := false, postToDelete := none, deleting := false },
     .fulfilled)
  | .failed =>
    ({ s with posts := executorDeleteSettled t Outcome.failed s.posts, deleting := false,
              log := s.log ++ [Effect.consoleError "Delete failed:"] }, .fulfilled)

/-- Handler `handleConfirmDelete()` run to completion with nothing interleaved. -/
def handleConfirmDelete (o : Outcome) (s : State) : State × Settled :=
  match handleConfirmDeleteStart s with
  | (s1, none) => (s1, .fulfilled)
  | (s1, some t) => handleConfirmDeleteResume t o s1

/-- Handler `handleCancelDelete()`. -/
def handleCancelDelete (s : State) : State :=
  { s with deleteDialogOpen := false, postToDelete := none }

end AllPosts

/-! ## Single post (`src/pages/Posts/SinglePost.jsx`) -/

namespace SinglePost

/-- State of the single-post view: `post`, `loading`, `error` come from `usePost(id)`,
`routeId` is the `id` of `useParams()` the hook is bound to. The view keeps no delete
target. The replies thread, which the handlers below neither read nor write, is left out. -/
structure State where
  routeId : PostId
  post : Option Post
  loading : Bool
  error : Option String
  deleteDialogOpen : Bool
  deleting : Bool
  log : List Effect
  deriving DecidableEq, Repr

/-- What the JSX of the single-post view reads from the state. -/
structure Rendered where
  post : Option Post
  loading : Bool
  error : Option String
  deleteDialogOpen : Bool
  deleting : Bool
  deriving DecidableEq, Repr

/-- The projection of the state that the single-post view renders. -/
def render (s : State) : Rendered :=
  { post := s.post, loading := s.loading, error := s.error,
    deleteDialogOpen := s.deleteDialogOpen, deleting := s.deleting }

/-- Handler `handleLike()` up to its `await`: reads `post.isLikedByCurrentUser` (which throws
when `post` is null, the result is then `none`) and issues the matching call. -/
def handleLikeStart (s : State) : Option State :=
  match s.post with
  | none => none
  | some p =>
    if p.isLikedByCurrentUser then
      some { s with post := onSinglePost (executorLikeIssued s.routeId false) s.post,
                    log := s.log ++ [Effect.unlikePost s.routeId] }
    else
      some { s with post := onSinglePost (executorLikeIssued s.routeId true) s.post,
                    log := s.log ++ [Effect.likePost s.routeId] }

/-- Handler `handleLike()` after its `await`, `isLiked` being the flag it read before: no
statement is left; the handler rejects when the call failed. The hook settles its
cache. -/
def handleLikeResume (isLiked : Bool) (o : Outcome) (s : State) : State × Settled :=
  ({ s with post := onSinglePost (executorLikeSettled s.routeId (!isLiked) o) s.post },
   match o with
   | .resolved => .fulfilled
   | .failed => .rejected)

/-- Handler `handleLike()` run to completion with nothing interleaved. -/
def handleLike (o : Outcome) (s : State) : State × Settled :=
  match s.post, handleLikeStart s with
  | some p, some s1 => handleLikeResume p.isLikedByCurrentUser o s1
  | _, _ => (s, .rejected)

/-- Handler `handleDeleteClick()`. -/
def handleDeleteClick (s : State) : State :=
  { s with deleteDialogOpen := true }

/-- Handler `handleConfirmDelete()` up to its `await`: no guard; sets `deleting` and issues
`deletePost()`. -/
def handleConfirmDeleteStart (s : State) : State :=
  { s with deleting := true, log := s.log ++ [Effect.deletePost s.routeId] }

/-- Handler `handleConfirmDelete()` after its `await`: on success `navigate(ROUTES.ALL_POSTS)`;
on failure `console.error`; `finally` resets `deleting` and closes the dialog. -/
def handleConfirmDeleteResume (o : Outcome) (s : State) : State × Settled :=
  match o with
  | .resolved =>
    ({ s with post := onSinglePost (executorDeleteSettled s.routeId Outcome.resolved) s.post,
              deleting := false, deleteDialogOpen := false,
              log := s.log ++ [Effect.navigate Route.allPosts] }, .fulfilled)
  | .failed =>
    ({ s with post := onSinglePost (executorDeleteSettled s.routeId Outcome.failed) s.post,
              deleting := false, deleteDialogOpen := false,
              log := s.log ++ [Effect.consoleError "Delete failed:"] }, .fulfilled)

/-- Handler `handleConfirmDelete()` run to completion with nothing interleaved. -/
def handleConfirmDelete (o : Outcome) (s : State) : State × Settled :=
  handleConfirmDeleteResume o (handleConfirmDeleteStart s)

/-- Handler `handleCancelDelete()`. -/
def handleCancelDelete (s : State) : State :=
  { s with deleteDialogOpen := false }

end SinglePost

/-! ## Profile feed (`src/pages/User/UserProfile.jsx`) -/

namespace UserProfile

/-- State of the profile view: `posts`, `postsLoading`, `postsError`, `loading`, `error`
come from `useUserProfile(userId)`, which hands the component no mutator; the `likePost`,
`unlikePost`, `deletePost` it awaits come from a separate `usePosts()` instance, whose own
collection the profile view does not display. The profile header record is left out. -/
structure State where
  posts : List Post
  postsLoading : Bool
  postsError : Option String
  loading : Bool
  error : Option String
  contactModalOpen : Bool
  deleteDialogOpen : Bool
  postToDelete : Option PostId
  deleting : Bool
  log : List Effect
  deriving DecidableEq, Repr

/-- What the JSX of the profile view reads from the state. -/
structure Rendered where
  posts : List Post
  postsLoading : Bool
  postsError : Option String
  loading : Bool
  error : Option String
  contactModalOpen : Bool
  deleteDialogOpen : Bool
  deleting : Bool
  deriving DecidableEq, Repr

/-- The projection of the state that the profile view renders. -/
def render (s : State) : Rendered :=
  { posts := s.posts, postsLoading := s.postsLoading, postsError := s.postsError,
    loading := s.loading, error := s.error, contactModalOpen := s.contactModalOpen,
    deleteDialogOpen := s.deleteDialogOpen, deleting := s.deleting }

/-- Handler `handleLike(postId, isLiked)` up to its `await`. -/
def handleLikeStart (postId : PostId) (isLiked : Bool) (s : State) : State :=
  if isLiked then
    { s with log := s.log ++ [Effect.unlikePost postId] }
  else
    { s with log := s.log ++ [Effect.likePost postId] }

/-- Handler `handleLike(postId, isLiked)` after its `await`: no statement is left; the handler
rejects when the call failed. -/
def handleLikeResume (o : Outcome) (s : State) : State × Settled :=
  (s, match o with
      | .resolved => .fulfilled
      | .failed => .rejected)

/-- Handler `handleLike(postId, isLiked)` run to completion with nothing interleaved. -/
def handleLike (postId : PostId) (isLiked : Bool) (o : Outcome) (s : State) :
    State × Settled :=
  handleLikeResume o (handleLikeStart postId isLiked s)

/-- Handler `handleDeleteClick(postId)`. -/
def handleDeleteClick (postId : PostId) (s : State) : State :=
  { s with postToDelete := some postId, deleteDialogOpen := true }

/-- Handler `handleConfirmDelete()` up to its `await`; the second component is the captured
target, `none` when the handler returned at `if (!postToDelete) return`. -/
def handleConfirmDeleteStart (s : State) : State × Option PostId :=
  match s.postToDelete with
  | none => (s, none)
  | some t =>
    if t.truthy then
      ({ s with deleting := true, log := s.log ++ [Effect.deletePost t] }, some t)
    else (s, none)

/-- Handler `handleConfirmDelete()` after its `await`: on success dialog closed and target
cleared ("Page will refresh or we can update state": the collection is not touched); on
failure `console.error`; `finally` resets `deleting`. -/
def handleConfirmDeleteResume (o : Outcome) (s : State) : State × Settled :=
  match o with
  | .resolved =>
    ({ s with deleteDialogOpen := false, postToDelete := none, deleting := false },
     .fulfilled)
  | .failed =>
    ({ s with deleting := false,
              log := s.log ++ [Effect.consoleError "Delete failed:"] }, .fulfilled)

/-- Handler `handleConfirmDelete()` run to completion with nothing interleaved. -/
def handleConfirmDelete (o : Outcome) (s : State) : State × Settled :=
  match handleConfirmDeleteStart s with
  | (s1, none) => (s1, .fulfilled)
  | (s1, some _) => handleConfirmDeleteResume o s1

/-- Handler `handleCancelDelete()`. -/
def handleCancelDelete (s : State) : State :=
  { s with deleteDialogOpen := false, postToDelete := none }

end UserProfile

/-- Whether an effect is one of the remote request-service calls. -/
def Effect.isRemote : Effect → Bool
  | .likePost _ => true
  | .unlikePost _ => true
  | .deletePost _ => true
  | .createPost _ => true
  | _ => false

/-- The authenticated user of `useAuthStore()`, as far as the views read it: its identity. -/
structure User where
  id : PostId
  deriving DecidableEq, Repr

/-- The `isOwnPost` of the single-post view: `post.author.id === user?.id`. The store's
`user` is null when nobody is signed in, `user?.id` is then `undefined` (`none`), which
the identity of an author never equals. It is also the value handed to `PostDetailView`
as `showDelete`. -/
def SinglePost.isOwnPost (post : Post) (user : Option User) : Bool :=
  decide (some post.authorId = user.map (fun u => u.id))

/-! ## Profile forms (`src/pages/Alumni/AlumniProfile.jsx`,
`src/pages/Student/StudentProfile.jsx`) -/

/-- The code points JavaScript's `String.prototype.trim` strips: `WhiteSpace` (tab, VT,
FF, the space separators, the byte order mark) and `LineTerminator`. -/
def isTrimChar (c : Char) : Bool :=
  c.toNat == 0x09 || c.toNat == 0x0A || c.toNat == 0x0B || c.toNat == 0x0C ||
  c.toNat == 0x0D || c.toNat == 0x20 || c.toNat == 0xA0 || c.toNat == 0x1680 ||
  (0x2000 ≤ c.toNat && c.toNat ≤ 0x200A) || c.toNat == 0x2028 || c.toNat == 0x2029 ||
  c.toNat == 0x202F || c.toNat == 0x205F || c.toNat == 0x3000 || c.toNat == 0xFEFF

/-- JavaScript `x.trim()`: `x` without its leading and trailing run of stripped code
points. -/
def jsTrim (x : String) : String :=
  String.mk ((x.data.dropWhile isTrimChar).reverse.dropWhile isTrimChar).reverse

/-- A Skill tag of the draft. -/
structure Skill where
  name : String
  deriving DecidableEq, Repr

/-- An Experience record of the draft; `fromYear` and `toYear` are its `from` and `to`. -/
structure Experience where
  company : String
  position : String
  fromYear : String
  toYear : String
  deriving DecidableEq, Repr

/-- The `user` record the user service answers with; a field the server leaves out or
sends as null is `none`. -/
structure ServerUser where
  firstName : Option String
  lastName : Option String
  phone : Option String
  currentCompany : Option String
  currentPosition : Option String
  currentCity : Option String
  currentCountry : Option String
  linkedIn : Option String
  profilePicture : Option String
  previousExperiences : Option (List Experience)
  skills : Option (List Skill)
  deriving DecidableEq, Repr

/-- How an awaited user-service call ends: it resolves with a value, or it fails with an
error whose `message` may be missing. -/
inductive Response (α : Type) where
  | resolved (value : α)
  | failed (message : Option String)
  deriving DecidableEq, Repr

/-- JavaScript `value || ""` on a string field that may be missing. -/
def orEmpty (value : Option String) : String :=
  value.getD ""

/-- JavaScript `err.message || fallback`: the fallback when the message is missing or
the empty string. -/
def messageOr (message : Option String) (fallback : String) : String :=
  match message with
  | none => fallback
  | some m => if m = "" then fallback else m

/-- The calls a profile form makes to its collaborators, over the draft type `D`:
the two user-service calls, the form library's `reset`, the session store's `updateUser`,
and `setTimeout(() => navigate(route), ms)`. -/
inductive FormEffect (D : Type) where
  | getUserProfile
  | updateUserProfile (data : D)
  | reset (values : D)
  | updateUser (user : ServerUser)
  | navigateAfter (ms : Nat) (route : Route)
  deriving DecidableEq, Repr

/-- The effects appended to a form log between an earlier and a later state of it. -/
def formIssuedSince {D : Type} (before after : List (FormEffect D)) : List (FormEffect D) :=
  after.drop before.length

/-- Modelled from the spec: `remove(index)` of `useFieldArray`, a function of the form
library (react-hook-form) that the sources only call. It is the Experience list's
"remove-by-index (shifts subsequent indices down, preserving order)". -/
def removeExperience (index : Nat) (entries : List Experience) : List Experience :=
  entries.take index ++ entries.drop (index + 1)

/-- Modelled from the spec: `append(entry)` of `useFieldArray`, a function of the form
library (react-hook-form) that the sources only call. It is the Experience list's
"append": the new entry goes after the existing ones. -/
def appendExperience (entry : Experience) (entries : List Experience) : List Experience :=
  entries ++ [entry]

namespace AlumniProfile

/-- The form values of the alumni profile form (`defaultValues` names the fields). -/
structure Draft where
  firstName : String
  lastName : String
  phone : String
  currentCompany : String
  currentPosition : String
  currentCity : String
  currentCountry : String
  linkedin : String
  profilePicture : String
  previousExperiences : List Experience
  skills : List Skill
  deriving DecidableEq, Repr

/-- The `defaultValues` of `useForm`. -/
def defaultValues : Draft :=
  { firstName := "", lastName := "", phone := "", currentCompany := "",
    currentPosition := "", currentCity := "", currentCountry := "", linkedin := "",
    profilePicture := "", previousExperiences := [], skills := [] }

/-- State of the alumni form: the five `useState` cells, the form values (`draft`) and
the values the form was last reset to (`baseline`), and the log of calls. -/
structure State where
  loading : Bool
  submitting : Bool
  error : String
  success : String
  newSkill : String
  baseline : Draft
  draft : Draft
  log : List (FormEffect Draft)
  deriving DecidableEq, Repr

/-- The state at mount: the `useState` initial values and the `defaultValues`. -/
def initial : State :=
  { loading := true, submitting := false, error := "", success := "", newSkill := "",
    baseline := defaultValues, draft := defaultValues, log := [] }

/-- Modelled from the spec: `formState.isDirty` of the form library (react-hook-form),
which the sources only read. It is the dirty flag: "any field differs from the loaded
baseline". -/
def isDirty (s : State) : Bool :=
  decide (s.draft ≠ s.baseline)

/-- The `disabled` prop of the submit button: `submitting || !isDirty`. -/
def submitDisabled (s : State) : Bool :=
  s.submitting || !isDirty s

/-- The values `fetchProfile` hands to `reset`, read off the fetched user. -/
def prefill (u : ServerUser) : Draft :=
  { firstName := orEmpty u.firstName, lastName := orEmpty u.lastName,
    phone := orEmpty u.phone, currentCompany := orEmpty u.currentCompany,
    currentPosition := orEmpty u.currentPosition, currentCity := orEmpty u.currentCity,
    currentCountry := orEmpty u.currentCountry, linkedin := orEmpty u.linkedIn,
    profilePicture := orEmpty u.profilePicture,
    previousExperiences := u.previousExperiences.getD [],
    skills := u.skills.getD [] }

/-- The effect function `fetchProfile()` up to its `await`. -/
def fetchProfileStart (s : State) : State :=
  { s with loading := true, error := "", log := s.log ++ [FormEffect.getUserProfile] }

/-- The effect function `fetchProfile()` after its `await`: on success `reset(...)` with
the fetched values; on failure `setError(err.message || "Failed to load profile")`;
`finally` ends `loading`. The failure is caught, the function is always fulfilled. -/
def fetchProfileResume (r : Response ServerUser) (s : State) : State × Settled :=
  match r with
  | .resolved u =>
    ({ s with draft := prefill u, baseline := prefill u, loading := false,
              log := s.log ++ [FormEffect.reset (prefill u)] }, .fulfilled)
  | .failed m =>
    ({ s with error := messageOr m "Failed to load profile", loading := false },
     .fulfilled)

/-- The effect function `fetchProfile()` run to completion with nothing interleaved. -/
def fetchProfile (r : Response ServerUser) (s : State) : State × Settled :=
  fetchProfileResume r (fetchProfileStart s)

/-- Handler `onSubmit(data)` up to its `await`. -/
def onSubmitStart (data : Draft) (s : State) : State :=
  { s with submitting := true, error := "", success := "",
           log := s.log ++ [FormEffect.updateUserProfile data] }

/-- Handler `onSubmit(data)` after its `await`: on success `updateUser(result.user)`, the
success message and the delayed navigation; on failure
`setError(err.message || "Failed to update profile")`; `finally` ends `submitting`. -/
def onSubmitResume (r : Response ServerUser) (s : State) : State × Settled :=
  match r with
  | .resolved u =>
    ({ s with success := "Profile updated successfully!", submitting := false,
              log := s.log ++ [FormEffect.updateUser u,
                               FormEffect.navigateAfter 2000 Route.alumniList] },
     .fulfilled)
  | .failed m =>
    ({ s with error := messageOr m "Failed to update profile", submitting := false },
     .fulfilled)

/-- Handler `onSubmit(data)` run to completion with nothing interleaved. -/
def onSubmit (data : Draft) (r : Response ServerUser) (s : State) : State × Settled :=
  onSubmitResume r (onSubmitStart data s)

/-- The input's `onChange`: `setNewSkill(e.target.value)`. -/
def setNewSkill (value : String) (s : State) : State :=
  { s with newSkill := value }

/-- Handler `addSkill()`: when `newSkill.trim()` is non-empty and no skill has that name,
the skill is appended and the input cleared; otherwise nothing happens. -/
def addSkill (s : State) : State :=
  if jsTrim s.newSkill ≠ "" ∧
      (s.draft.skills.find? (fun k => decide (k.name = jsTrim s.newSkill))).isNone then
    { s with draft := { s.draft with
                          skills := s.draft.skills ++ [{ name := jsTrim s.newSkill }] },
             newSkill := "" }
  else s

/-- Handler `removeSkill(index)`: `skills.filter((_, i) => i !== index)`; `index` is any
JavaScript integer. -/
def removeSkill (index : Int) (s : State) : State :=
  { s with draft := { s.draft with
      skills := (s.draft.skills.enum.filter (fun p => decide ((p.1 : Int) ≠ index))).map
        Prod.snd } }

/-- The Add Experience button: `appendExperience` of an entry with four empty fields. -/
def addExperienceClick (s : State) : State :=
  { s with draft := { s.draft with
      previousExperiences :=
        appendExperience { company := "", position := "", fromYear := "", toYear := "" }
          s.draft.previousExperiences } }

/-- The trash button of the entry rendered at `index`: `removeExperience(index)`. -/
def removeExperienceClick (index : Nat) (s : State) : State :=
  { s with draft := { s.draft with
      previousExperiences := removeExperience index s.draft.previousExperiences } }

end AlumniProfile

namespace StudentProfile

/-- The form values of the student profile form (`defaultValues` names the fields). -/
structure Draft where
  firstName : String
  lastName : String
  profilePicture : String
  deriving DecidableEq, Repr

/-- The `defaultValues` of `useForm`. -/
def defaultValues : Draft :=
  { firstName := "", lastName := "", profilePicture := "" }

/-- State of the student form: the four `useState` cells, the form values (`draft`) and
the values the form was last reset to (`baseline`), and the log of calls. -/
structure State where
  loading : Bool
  submitting : Bool
  error : String
  success : String
  baseline : Draft
  draft : Draft
  log : List (FormEffect Draft)
  deriving DecidableEq, Repr

/-- The state at mount: the `useState` initial values and the `defaultValues`. -/
def initial : State :=
  { loading := true, submitting := false, error := "", success := "",
    baseline := defaultValues, draft := defaultValues, log := [] }

/-- Modelled from the spec: `formState.isDirty` of the form library (react-hook-form),
which the sources only read. It is the dirty flag: "any field differs from the loaded
baseline". -/
def isDirty (s : State) : Bool :=
  decide (s.draft ≠ s.baseline)

/-- The `disabled` prop of the submit button: `submitting || !isDirty`. -/
def submitDisabled (s : State) : Bool :=
  s.submitting || !isDirty s

/-- The values `fetchProfile` hands to `reset`, read off the fetched user. -/
def prefill (u : ServerUser) : Draft :=
  { firstName := orEmpty u.firstName, lastName := orEmpty u.lastName,
    profilePicture := orEmpty u.profilePicture }

/-- The effect function `fetchProfile()` up to its `await`. -/
def fetchProfileStart (s : State) : State :=
  { s with loading := true, error := "", log := s.log ++ [FormEffect.getUserProfile] }

/-- The effect function `fetchProfile()` after its `await`: on success `reset(...)` with
the fetched values; on failure `setError(err.message || "Failed to load profile")`;
`finally` ends `loading`. The failure is caught, the function is always fulfilled. -/
def fetchProfileResume (r : Response ServerUser) (s : State) : State × Settled :=
  match r with
  | .resolved u =>
    ({ s with draft := prefill u, baseline := prefill u, loading := false,
              log := s.log ++ [FormEffect.reset (prefill u)] }, .fulfilled)
  | .failed m =>
    ({ s with error := messageOr m "Failed to load profile", loading := false },
     .fulfilled)

/-- The effect function `fetchProfile()` run to completion with nothing interleaved. -/
def fetchProfile (r : Response ServerUser) (s : State) : State × Settled :=
  fetchProfileResume r (fetchProfileStart s)

/-- Handler `onSubmit(data)` up to its `await`. -/
def onSubmitStart (data : Draft) (s : State) : State :=
  { s with submitting := true, error := "", success := "",
           log := s.log ++ [FormEffect.updateUserProfile data] }

/-- Handler `onSubmit(data)` after its `await`: on success `updateUser(result.user)`, the
success message and the delayed navigation; on failure
`setError(err.message || "Failed to update profile")`; `finally` ends `submitting`. -/
def onSubmitResume (r : Response ServerUser) (s : State) : State × Settled :=
  match r with
  | .resolved u =>
    ({ s with success := "Profile updated successfully!", submitting := false,
              log := s.log ++ [FormEffect.updateUser u,
                               FormEffect.navigateAfter 2000 Route.alumniList] },
     .fulfilled)
  | .failed m =>
    ({ s with error := messageOr m "Failed to update profile", submitting := false },
     .fulfilled)

/-- Handler `onSubmit(data)` run to completion with nothing interleaved. -/
def onSubmit (data : Draft) (r : Response ServerUser) (s : State) : State × Settled :=
  onSubmitResume r (onSubmitStart data s)

end StudentProfile

/-! ## The create-post modal, and the runs of the three list views -/

/-- How the awaited `createPost(data)` of the hook ends: it resolves with a result, or it
throws. The result is `none` when it is null or undefined (reading `result.success` then
throws), otherwise `some b` with `b` the truthiness of its `success` field. -/
inductive CreateResponse where
  | resolved (result : Option Bool)
  | failed
  deriving DecidableEq, Repr

namespace Dashboard

/-- Handler `handleOpenCreatePost()`. -/
def handleOpenCreatePost (s : State) : State :=
  { s with createPostOpen := true }

/-- Handler `handleCloseCreatePost()`. -/
def handleCloseCreatePost (s : State) : State :=
  { s with createPostOpen := false }

/-- Handler `handleCreatePost(data)` up to its `await`: `createPost(data)` is issued. -/
def handleCreatePostStart (data : PostDraft) (s : State) : State :=
  { s with log := s.log ++ [Effect.createPost data] }

/-- Handler `handleCreatePost(data)` after its `await`: `if (result.success)` the modal is
closed. The handler has no `try`: it rejects when `createPost` threw and when the result
has no `success` to read. -/
def handleCreatePostResume (r : CreateResponse) (s : State) : State × Settled :=
  match r with
  | .failed => (s, .rejected)
  | .resolved none => (s, .rejected)
  | .resolved (some success) =>
    if success then ({ s with createPostOpen := false }, .fulfilled)
    else (s, .fulfilled)

/-- Handler `handleCreatePost(data)` run to completion with nothing interleaved. -/
def handleCreatePost (data : PostDraft) (r : CreateResponse) (s : State) :
    State × Settled :=
  handleCreatePostResume r (handleCreatePostStart data s)

/-- The dashboard at mount: the `useState` initial values, and whatever the data hook
hands over. -/
def mount (posts : List Post) (postsLoading : Bool) : State :=
  { posts := posts, postsLoading := postsLoading, createPostOpen := false,
    deleteDialogOpen := false, postToDelete := none, deleting := false, log := [] }

/-- What can happen to a mounted dashboard: a handler runs up to its `await` or (for a
call in flight) from its `await` on, or the data hook hands over new data. -/
inductive Action where
  | hookData (posts : List Post) (postsLoading : Bool)
  | openCreatePost
  | closeCreatePost
  | createPostStart (data : PostDraft)
  | createPostResume (r : CreateResponse)
  | likeStart (postId : PostId) (isLiked : Bool)
  | likeResume (postId : PostId) (isLiked : Bool) (o : Outcome)
  | deleteClick (postId : PostId)
  | confirmDeleteStart
  | confirmDeleteResume (t : PostId) (o : Outcome)
  | cancelDelete
  deriving DecidableEq, Repr

/-- One step of the dashboard. -/
def step (s : State) : Action → State
  | .hookData posts postsLoading => { s with posts := posts, postsLoading := postsLoading }
  | .openCreatePost => handleOpenCreatePost s
  | .closeCreatePost => handleCloseCreatePost s
  | .createPostStart data => handleCreatePostStart data s
  | .createPostResume r => (handleCreatePostResume r s).1
  | .likeStart postId isLiked => handleLikeStart postId isLiked s
  | .likeResume postId isLiked o => (handleLikeResume postId isLiked o s).1
  | .deleteClick postId => handleDeleteClick postId s
  | .confirmDeleteStart => (handleConfirmDeleteStart s).1
  | .confirmDeleteResume t o => (handleConfirmDeleteResume t o s).1
  | .cancelDelete => handleCancelDelete s

/-- The state after a sequence of steps. -/
def run (actions : List Action) (s : State) : State :=
  actions.foldl step s

end Dashboard

namespace AllPosts

/-- The Ask a Question button: `setCreateModalOpen(true)`. -/
def openCreateModal (s : State) : State :=
  { s with createModalOpen := true }

/-- The `onClose` of the create-post modal: `setCreateModalOpen(false)`. -/
def closeCreateModal (s : State) : State :=
  { s with createModalOpen := false }

/-- Handler `handleCreatePost(data)` up to its `await`: `createPost(data)` is issued. -/
def handleCreatePostStart (data : PostDraft) (s : State) : State :=
  { s with log := s.log ++ [Effect.createPost data] }

/-- Handler `handleCreatePost(data)` after its `await`: the modal is closed, the result
is not read. The handler has no `try`: it rejects when `createPost` threw. -/
def handleCreatePostResume (r : CreateResponse) (s : State) : State × Settled :=
  match r with
  | .failed => (s, .rejected)
  | .resolved _ => ({ s with createModalOpen := false }, .fulfilled)

/-- Handler `handleCreatePost(data)` run to completion with nothing interleaved. -/
def handleCreatePost (data : PostDraft) (r : CreateResponse) (s : State) :
    State × Settled :=
  handleCreatePostResume r (handleCreatePostStart data s)

/-- The full list at mount: the `useState` initial values, and whatever the data hook
hands over. -/
def mount (posts : List Post) (loading : Bool) (error : Option String) : State :=
  { posts := posts, loading := loading, error := error, createModalOpen := false,
    deleteDialogOpen := false, postToDelete := none, deleting := false, log := [] }

/-- What can happen to a mounted full list: a handler runs up to its `await` or (for a
call in flight) from its `await` on, or the data hook hands over new data. -/
inductive Action where
  | hookData (posts : List Post) (loading : Bool) (error : Option String)
  | openCreate
  | closeCreate
  | createPostStart (data : PostDraft)
  | createPostResume (r : CreateResponse)
  | likeStart (postId : PostId) (isLiked : Bool)
  | likeResume (postId : PostId) (isLiked : Bool) (o : Outcome)
  | deleteClick (postId : PostId)
  | confirmDeleteStart
  | confirmDeleteResume (t : PostId) (o : Outcome)
  | cancelDelete
  deriving DecidableEq, Repr

/-- One step of the full list. -/
def step (s : State) : Action → State
  | .hookData posts loading error =>
    { s with posts := posts, loading := loading, error := error }
  | .openCreate => openCreateModal s
  | .closeCreate => closeCreateModal s
  | .createPostStart data => handleCreatePostStart data s
  | .createPostResume r => (handleCreatePostResume r s).1
  | .likeStart postId isLiked => handleLikeStart postId isLiked s
  | .likeResume postId isLiked o => (handleLikeResume postId isLiked o s).1
  | .deleteClick postId => handleDeleteClick postId s
  | .confirmDeleteStart => (handleConfirmDeleteStart s).1
  | .confirmDeleteResume t o => (handleConfirmDeleteResume t o s).1
  | .cancelDelete => handleCancelDelete s

/-- The state after a sequence of steps. -/
def run (actions : List Action) (s : State) : State :=
  actions.foldl step s

end AllPosts

namespace UserProfile

/-- Handler `handleContactClick()`. -/
def handleContactClick (s : State) : State :=
  { s with contactModalOpen := true }

/-- The `onClose` of the contact modal: `setContactModalOpen(false)`. -/
def closeContactModal (s : State) : State :=
  { s with contactModalOpen := false }

/-- The profile view at mount: the `useState` initial values, and whatever the data hook
hands over. -/
def mount (posts : List Post) (postsLoading : Bool) (postsError : Option String)
    (loading : Bool) (error : Option String) : State :=
  { posts := posts, postsLoading := postsLoading, postsError := postsError,
    loading := loading, error := error, contactModalOpen := false,
    deleteDialogOpen := false, postToDelete := none, deleting := false, log := [] }

/-- What can happen to a mounted profile view: a handler runs up to its `await` or (for
a call in flight) from its `await` on, or the data hook hands over new data. -/
inductive Action where
  | hookData (posts : List Post) (postsLoading : Bool) (postsError : Option String)
      (loading : Bool) (error : Option String)
  | contactClick
  | closeContact
  | likeStart (postId : PostId) (isLiked : Bool)
  | likeResume (o : Outcome)
  | deleteClick (postId : PostId)
  | confirmDeleteStart
  | confirmDeleteResume (o : Outcome)
  | cancelDelete
  deriving DecidableEq, Repr

/-- One step of the profile view. -/
def step (s : State) : Action → State
  | .hookData posts postsLoading postsError loading error =>
    { s with posts := posts, postsLoading := postsLoading, postsError := postsError,
             loading := loading, error := error }
  | .contactClick => handleContactClick s
  | .closeContact => closeContactModal s
  | .likeStart postId isLiked => handleLikeStart postId isLiked s
  | .likeResume o => (handleLikeResume o s).1
  | .deleteClick postId => handleDeleteClick postId s
  | .confirmDeleteStart => (handleConfirmDeleteStart s).1
  | .confirmDeleteResume o => (handleConfirmDeleteResume o s).1
  | .cancelDelete => handleCancelDelete s

/-- The state after a sequence of steps. -/
def run (actions : List Action) (s : State) : State :=
  actions.foldl step s

end UserProfile

/-! ## Sample states -/

/-- The post of the spec's scenario: `p1`, three likes, not liked by the viewer. -/
def samplePost : Post :=
  { id := PostId.str "p1", authorId := PostId.str "u1", body := "question",
    createdAt := "2024-01-01", likeCount := 3, isLikedByCurrentUser := false,
    replyCount := 0 }

/-- A second post, five likes, not liked by the viewer. -/
def otherPost : Post :=
  { id := PostId.str "p2", authorId := PostId.str "u2", body := "another",
    createdAt := "2024-01-02", likeCount := 5, isLikedByCurrentUser := false,
    replyCount := 1 }

/-- A dashboard showing the two sample posts, gate idle, nothing logged. -/
def Dashboard.sample : Dashboard.State :=
  { posts := [samplePost, otherPost], postsLoading := false, createPostOpen := false,
    deleteDialogOpen := false, postToDelete := none, deleting := false, log := [] }

/-- A full list showing the two sample posts, gate idle, nothing logged. -/
def AllPosts.sample : AllPosts.State :=
  { posts := [samplePost, otherPost], loading := false, error := none,
    createModalOpen := false, deleteDialogOpen := false, postToDelete := none,
    deleting := false, log := [] }

/-- A single-post view showing the sample post, gate idle, nothing logged. -/
def SinglePost.sample : SinglePost.State :=
  { routeId := PostId.str "p1", post := some samplePost, loading := false, error := none,
    deleteDialogOpen := false, deleting := false, log := [] }

/-- A profile view showing the two sample posts, gate idle, nothing logged. -/
def UserProfile.sample : UserProfile.State :=
  { posts := [samplePost, otherPost], postsLoading := false, postsError := none,
    loading := false, error := none, contactModalOpen := false,
    deleteDialogOpen := false, postToDelete := none, deleting := false, log := [] }

/-- An alumni form, loaded, whose draft holds the one skill `React`. -/
def AlumniProfile.withReact : AlumniProfile.State :=
  { AlumniProfile.initial with
    loading := false,
    baseline := { AlumniProfile.defaultValues with skills := [{ name := "React" }] },
    draft := { AlumniProfile.defaultValues with skills := [{ name := "React" }] } }

/-- Three Experience records `A`, `B`, `C`. -/
def sampleExperiences : List Experience :=
  [{ company := "A", position := "engineer", fromYear := "2015", toYear := "2017" },
   { company := "B", position := "lead", fromYear := "2017", toYear := "2019" },
   { company := "C", position := "manager", fromYear := "2019", toYear := "2021" }]

/-- An alumni form, loaded, whose draft holds the three sample experiences and the
skills `React`, `Lean`, `Go`. -/
def AlumniProfile.sample : AlumniProfile.State :=
  { AlumniProfile.initial with
    loading := false,
    baseline := { AlumniProfile.defaultValues with
      previousExperiences := sampleExperiences,
      skills := [{ name := "React" }, { name := "Lean" }, { name := "Go" }] },
    draft := { AlumniProfile.defaultValues with
      previousExperiences := sampleExperiences,
      skills := [{ name := "React" }, { name := "Lean" }, { name := "Go" }] } }

/-! ## Helper lemmas -/

theorem issuedSince_append (l x : List Effect) : issuedSince l (l ++ x) = x := by
  simp [issuedSince]

theorem updatePostLikes_getElem? (id : PostId) (b : Bool) (posts : List Post) (i : Nat) :
    (updatePostLikes id b posts)[i]? =
      (posts[i]?).map (fun p =>
        if p.id = id then
          { p with isLikedByCurrentUser := b,
                   likeCount := p.likeCount + (if b then 1 else -1) }
        else p) := by
  simp [updatePostLikes]

/-! ## Like toggling -/

/-- C1, as stated, fails in the dashboard: with `p1` at three likes and not liked,
`handleLike` has issued the remote like call and is suspended at its `await`, and the
displayed collection still shows `p1` with three likes and not liked. -/
theorem c1_dashboard_patch_not_before_resolution :
    (Dashboard.handleLikeStart samplePost.id samplePost.isLikedByCurrentUser
        Dashboard.sample).log = [Effect.likePost (PostId.str "p1")] ∧
    (Dashboard.handleLikeStart samplePost.id samplePost.isLikedByCurrentUser
        Dashboard.sample).posts[0]? = some samplePost ∧
    samplePost.isLikedByCurrentUser = false ∧ samplePost.likeCount = 3 ∧
    ¬ ∃ p ∈ (Dashboard.handleLikeStart samplePost.id samplePost.isLikedByCurrentUser
        Dashboard.sample).posts, p.isLikedByCurrentUser = true ∧ p.likeCount = 4 := by
  decide

/-- C1, amended: in the dashboard, for a post `p` with `isLikedByCurrentUser = false` and
`likeCount = n`, `handleLike` issues the remote like call and leaves the displayed
collection unchanged while the call is pending; once the call resolves the collection
shows `p` with `isLikedByCurrentUser = true` and `likeCount = n + 1`. -/
theorem c1_dashboard_patch_follows_resolution (s : Dashboard.State) (i : Nat) (p : Post)
    (n : Int) (hp : s.posts[i]? = some p) (hliked : p.isLikedByCurrentUser = false)
    (hn : p.likeCount = n) :
    issuedSince s.log (Dashboard.handleLikeStart p.id p.isLikedByCurrentUser s).log =
      [Effect.likePost p.id] ∧
    (Dashboard.handleLikeStart p.id p.isLikedByCurrentUser s).posts = s.posts ∧
    (Dashboard.handleLike p.id p.isLikedByCurrentUser Outcome.resolved s).1.posts[i]? =
      some { p with isLikedByCurrentUser := true, likeCount := n + 1 } ∧
    (Dashboard.handleLike p.id p.isLikedByCurrentUser Outcome.resolved s).2 =
      Settled.fulfilled := by
  subst hn
  rw [hliked]
  refine ⟨?_, ?_, ?_, ?_⟩
  · simp [Dashboard.handleLikeStart, issuedSince_append]
  · simp [Dashboard.handleLikeStart]
  · simp [Dashboard.handleLike, Dashboard.handleLikeStart, Dashboard.handleLikeResume,
      updatePostLikes_getElem?, hp]
  · simp [Dashboard.handleLike, Dashboard.handleLikeResume]

/-- Witness of C1 amended: the spec's scenario post, three likes becoming four only
after the call has resolved. -/
theorem c1_dashboard_patch_follows_resolution_witness :
    issuedSince Dashboard.sample.log
        (Dashboard.handleLikeStart samplePost.id samplePost.isLikedByCurrentUser
          Dashboard.sample).log = [Effect.likePost samplePost.id] ∧
    (Dashboard.handleLikeStart samplePost.id samplePost.isLikedByCurrentUser
        Dashboard.sample).posts = Dashboard.sample.posts ∧
    (Dashboard.handleLike samplePost.id samplePost.isLikedByCurrentUser Outcome.resolved
        Dashboard.sample).1.posts[0]? =
      some { samplePost with isLikedByCurrentUser := true, likeCount := 3 + 1 } ∧
    (Dashboard.handleLike samplePost.id samplePost.isLikedByCurrentUser Outcome.resolved
        Dashboard.sample).2 = Settled.fulfilled :=
  c1_dashboard_patch_follows_resolution Dashboard.sample 0 samplePost 3 rfl rfl rfl

theorem updatePostLikes_undo (id : PostId) (b : Bool) (posts : List Post)
    (h : ∀ p ∈ posts, p.id = id → p.isLikedByCurrentUser = b) :
    updatePostLikes id b (updatePostLikes id (!b) posts) = posts := by
  unfold updatePostLikes
  rw [List.map_map]
  conv_rhs => rw [← List.map_id posts]
  apply List.map_congr_left
  intro p hp
  by_cases hid : p.id = id
  · have hflag := h p hp hid
    obtain ⟨pid, au, bd, ca, lc, liked, rc⟩ := p
    simp only at hid hflag
    subst hflag
    cases liked <;> simp [hid]
  · simp [hid]

theorem onSinglePost_like_undo (id : PostId) (b : Bool) (p : Post)
    (h : p.isLikedByCurrentUser = b) :
    onSinglePost (executorLikeSettled id (!b) Outcome.failed)
        (onSinglePost (executorLikeIssued id (!b)) (some p)) = some p := by
  have hundo := updatePostLikes_undo id b [p]
    (by intro q hq _; rw [List.mem_singleton.mp hq]; exact h)
  have hinner : (onSinglePost (executorLikeIssued id (!b)) (some p)).toList =
      updatePostLikes id (!b) [p] := by
    simp [onSinglePost, executorLikeIssued, updatePostLikes]
  unfold onSinglePost at hinner ⊢
  rw [hinner]
  show (updatePostLikes id (!(!b)) (updatePostLikes id (!b) [p])).head? = some p
  rw [Bool.not_not, hundo]
  rfl

/-- C2: in every view, when the remote like or unlike call issued by `handleLike` fails,
the collection the view displays after the handler has settled is the collection it
displayed before `handleLike` was invoked (for the single-post view: the one post). In
the dashboard and the profile feed nothing was patched; in the full list and the
single-post view the hook's patch, visible while the call is pending and kept when it
resolves, is taken back. `handleLike` is invoked with the liked flag of the post of that
identity, which is the hypothesis for the full list. -/
theorem c2_failed_like_leaves_collection (postId : PostId) (isLiked : Bool)
    (d : Dashboard.State) (a : AllPosts.State) (sp : SinglePost.State)
    (u : UserProfile.State)
    (ha : ∀ p ∈ a.posts, p.id = postId → p.isLikedByCurrentUser = isLiked) :
    (Dashboard.handleLike postId isLiked Outcome.failed d).1.posts = d.posts ∧
    ((AllPosts.handleLikeStart postId isLiked a).posts =
        updatePostLikes postId (!isLiked) a.posts ∧
      (AllPosts.handleLike postId isLiked Outcome.resolved a).1.posts =
        updatePostLikes postId (!isLiked) a.posts ∧
      (AllPosts.handleLike postId isLiked Outcome.failed a).1.posts = a.posts) ∧
    (SinglePost.handleLike Outcome.failed sp).1.post = sp.post ∧
    (UserProfile.handleLike postId isLiked Outcome.failed u).1.posts = u.posts := by
  refine ⟨?_, ⟨?_, ?_, ?_⟩, ?_, ?_⟩
  · cases isLiked <;> simp [Dashboard.handleLike, Dashboard.handleLikeStart,
      Dashboard.handleLikeResume]
  · cases isLiked <;> simp [AllPosts.handleLikeStart, executorLikeIssued]
  · cases isLiked <;> simp [AllPosts.handleLike, AllPosts.handleLikeStart,
      AllPosts.handleLikeResume, executorLikeIssued, executorLikeSettled]
  · have hundo := updatePostLikes_undo postId isLiked a.posts ha
    cases isLiked <;> simpa [AllPosts.handleLike, AllPosts.handleLikeStart,
      AllPosts.handleLikeResume, executorLikeIssued, executorLikeSettled] using hundo
  · unfold SinglePost.handleLike SinglePost.handleLikeStart
    cases h : sp.post with
    | none => simp [h]
    | some p =>
      by_cases hl : p.isLikedByCurrentUser = true
      · have hundo := onSinglePost_like_undo sp.routeId true p hl
        simp only [Bool.not_true] at hundo
        simp only [hl, if_true, SinglePost.handleLikeResume, Bool.not_true, h]
        exact hundo
      · have hl2 : p.isLikedByCurrentUser = false := by simpa using hl
        have hundo := onSinglePost_like_undo sp.routeId false p hl2
        simp only [Bool.not_false] at hundo
        simp only [hl2, Bool.false_eq_true, if_false, SinglePost.handleLikeResume,
          Bool.not_false, h]
        exact hundo
  · cases isLiked <;> simp [UserProfile.handleLike, UserProfile.handleLikeStart,
      UserProfile.handleLikeResume]

/-- Witness of C2: the sample post, not liked, on the sample full list: the like is shown
while the call is pending and taken back when the call fails. -/
theorem c2_failed_like_leaves_collection_witness :
    (∀ p ∈ AllPosts.sample.posts,
      p.id = samplePost.id → p.isLikedByCurrentUser = samplePost.isLikedByCurrentUser) ∧
    (AllPosts.handleLikeStart samplePost.id samplePost.isLikedByCurrentUser
        AllPosts.sample).posts[0]? =
      some { samplePost with isLikedByCurrentUser := true, likeCount := 4 } ∧
    (AllPosts.handleLike samplePost.id samplePost.isLikedByCurrentUser Outcome.failed
        AllPosts.sample).1.posts = AllPosts.sample.posts :=
  ⟨by decide, by decide,
   (c2_failed_like_leaves_collection samplePost.id samplePost.isLikedByCurrentUser
      Dashboard.sample AllPosts.sample SinglePost.sample UserProfile.sample
      (by decide)).2.1.2.2⟩

/-- C3, as stated, fails in the dashboard: with `p2` at five likes and not liked, two
`handleLike(p2, false)` invocations are started before either call resolves; the second
is not rejected, two remote like calls are issued, and after both resolve the collection
shows seven likes. -/
theorem c3_dashboard_second_like_not_rejected :
    otherPost.likeCount = 5 ∧ otherPost.isLikedByCurrentUser = false ∧
    issuedSince Dashboard.sample.log
        (Dashboard.handleLikeStart otherPost.id false
          (Dashboard.handleLikeStart otherPost.id false Dashboard.sample)).log =
      [Effect.likePost otherPost.id, Effect.likePost otherPost.id] ∧
    (Dashboard.handleLikeResume otherPost.id false Outcome.resolved
        (Dashboard.handleLikeResume otherPost.id false Outcome.resolved
          (Dashboard.handleLikeStart otherPost.id false
            (Dashboard.handleLikeStart otherPost.id false Dashboard.sample))).1).1.posts[1]? =
      some { otherPost with isLikedByCurrentUser := true, likeCount := 7 } := by
  decide

/-- C3, amended: `handleLike` holds no like-mutation lock. In the dashboard a second
`handleLike(id, false)` started while the first is in flight is not rejected: each of the
two invocations issues its own remote like call, the collection is unchanged while both
are pending, and each invocation whose call resolves applies `updatePostLikes(id, true)`
once. -/
theorem c3_dashboard_each_like_issues_and_applies (s : Dashboard.State) (postId : PostId) :
    issuedSince s.log
        (Dashboard.handleLikeStart postId false
          (Dashboard.handleLikeStart postId false s)).log =
      [Effect.likePost postId, Effect.likePost postId] ∧
    (Dashboard.handleLikeStart postId false
        (Dashboard.handleLikeStart postId false s)).posts = s.posts ∧
    (Dashboard.handleLikeResume postId false Outcome.resolved
        (Dashboard.handleLikeStart postId false
          (Dashboard.handleLikeStart postId false s))).1.posts =
      updatePostLikes postId true s.posts ∧
    (Dashboard.handleLikeResume postId false Outcome.resolved
        (Dashboard.handleLikeResume postId false Outcome.resolved
          (Dashboard.handleLikeStart postId false
            (Dashboard.handleLikeStart postId false s))).1).1.posts =
      updatePostLikes postId true (updatePostLikes postId true s.posts) ∧
    (Dashboard.handleLikeResume postId false Outcome.failed
        (Dashboard.handleLikeResume postId false Outcome.resolved
          (Dashboard.handleLikeStart postId false
            (Dashboard.handleLikeStart postId false s))).1).1.posts =
      updatePostLikes postId true s.posts := by
  simp [Dashboard.handleLikeStart, Dashboard.handleLikeResume, issuedSince_append]

/-- C4: in the dashboard, for a post `p` of the displayed collection, running
`handleLike(p.id, p.isLikedByCurrentUser)` to completion and then `handleLike` again with
the updated flag, no remote call failing, leaves `p` as it was: the same `likeCount` and
the same `isLikedByCurrentUser` (and every other field) as before the first toggle. -/
theorem c4_dashboard_like_round_trip (s : Dashboard.State) (i : Nat) (p : Post)
    (hp : s.posts[i]? = some p) :
    ∃ p1 : Post,
      (Dashboard.handleLike p.id p.isLikedByCurrentUser Outcome.resolved s).1.posts[i]? =
        some p1 ∧
      p1.id = p.id ∧ p1.isLikedByCurrentUser = !p.isLikedByCurrentUser ∧
      (Dashboard.handleLike p1.id p1.isLikedByCurrentUser Outcome.resolved
        (Dashboard.handleLike p.id p.isLikedByCurrentUser Outcome.resolved s).1).1.posts[i]? =
        some p := by
  obtain ⟨pid, au, bd, ca, lc, liked, rc⟩ := p
  cases liked
  · refine ⟨{ id := pid, authorId := au, body := bd, createdAt := ca, likeCount := lc + 1,
              isLikedByCurrentUser := true, replyCount := rc }, ?_, rfl, rfl, ?_⟩
    · simp [Dashboard.handleLike, Dashboard.handleLikeStart, Dashboard.handleLikeResume,
        updatePostLikes_getElem?, hp]
    · simp [Dashboard.handleLike, Dashboard.handleLikeStart, Dashboard.handleLikeResume,
        updatePostLikes_getElem?, hp]
  · refine ⟨{ id := pid, authorId := au, body := bd, createdAt := ca, likeCount := lc + -1,
              isLikedByCurrentUser := false, replyCount := rc }, ?_, rfl, rfl, ?_⟩
    · simp [Dashboard.handleLike, Dashboard.handleLikeStart, Dashboard.handleLikeResume,
        updatePostLikes_getElem?, hp]
    · simp [Dashboard.handleLike, Dashboard.handleLikeStart, Dashboard.handleLikeResume,
        updatePostLikes_getElem?, hp]

/-- Witness of C4: the sample post is liked and then unliked on the sample dashboard. -/
theorem c4_dashboard_like_round_trip_witness :
    ∃ p1 : Post,
      (Dashboard.handleLike samplePost.id samplePost.isLikedByCurrentUser Outcome.resolved
        Dashboard.sample).1.posts[0]? = some p1 ∧
      p1.id = samplePost.id ∧
      p1.isLikedByCurrentUser = !samplePost.isLikedByCurrentUser ∧
      (Dashboard.handleLike p1.id p1.isLikedByCurrentUser Outcome.resolved
        (Dashboard.handleLike samplePost.id samplePost.isLikedByCurrentUser Outcome.resolved
          Dashboard.sample).1).1.posts[0]? = some samplePost :=
  c4_dashboard_like_round_trip Dashboard.sample 0 samplePost rfl

/-! ## The delete confirmation gate -/

/-- C5: in the dashboard, with target `t` selected, `handleConfirmDelete` calls
`removePost(t)` exactly when the remote `deletePost(t)` it awaited resolved; the
collection is then `removePost t` of the old one. When the remote delete fails no
`removePost` is called at all and the collection is unchanged. -/
theorem c5_dashboard_remove_iff_delete_resolved (s : Dashboard.State) (t : PostId)
    (o : Outcome) (ht : s.postToDelete = some t) :
    (t.truthy = true →
      Effect.deletePost t ∈ issuedSince s.log (Dashboard.handleConfirmDelete o s).1.log) ∧
    (Effect.removePost t ∈ issuedSince s.log (Dashboard.handleConfirmDelete o s).1.log ↔
      (Effect.deletePost t ∈ issuedSince s.log (Dashboard.handleConfirmDelete o s).1.log ∧
        o = Outcome.resolved)) ∧
    (Effect.removePost t ∈ issuedSince s.log (Dashboard.handleConfirmDelete o s).1.log →
      (Dashboard.handleConfirmDelete o s).1.posts = removePost t s.posts) ∧
    (o = Outcome.failed →
      (∀ id, Effect.removePost id ∉
        issuedSince s.log (Dashboard.handleConfirmDelete o s).1.log) ∧
      (Dashboard.handleConfirmDelete o s).1.posts = s.posts) := by
  by_cases htr : t.truthy = true
  · cases o <;>
      simp [Dashboard.handleConfirmDelete, Dashboard.handleConfirmDeleteStart,
        Dashboard.handleConfirmDeleteResume, ht, htr, issuedSince_append]
  · have hnil : issuedSince s.log s.log = [] := by simp [issuedSince]
    cases o <;>
      simp [Dashboard.handleConfirmDelete, Dashboard.handleConfirmDeleteStart, ht, htr, hnil]

/-- Witness of C5: the sample post selected on the sample dashboard, the remote delete
failing. -/
theorem c5_dashboard_remove_iff_delete_resolved_witness :
    (Dashboard.handleDeleteClick samplePost.id Dashboard.sample).postToDelete =
      some samplePost.id ∧
    (Effect.removePost samplePost.id ∈
        issuedSince (Dashboard.handleDeleteClick samplePost.id Dashboard.sample).log
          (Dashboard.handleConfirmDelete Outcome.failed
            (Dashboard.handleDeleteClick samplePost.id Dashboard.sample)).1.log ↔
      (Effect.deletePost samplePost.id ∈
        issuedSince (Dashboard.handleDeleteClick samplePost.id Dashboard.sample).log
          (Dashboard.handleConfirmDelete Outcome.failed
            (Dashboard.handleDeleteClick samplePost.id Dashboard.sample)).1.log ∧
        Outcome.failed = Outcome.resolved)) :=
  ⟨rfl, (c5_dashboard_remove_iff_delete_resolved
    (Dashboard.handleDeleteClick samplePost.id Dashboard.sample) samplePost.id
    Outcome.failed rfl).2.1⟩

/-- C6 fails in the profile feed: the sample post is selected and its delete confirmed,
the remote `deletePost` resolves, the dialog closes and the target is cleared, yet the
collection the profile view displays still holds the post. The dashboard, on the same
input, removes it. -/
theorem c6_profile_feed_keeps_deleted_post :
    issuedSince UserProfile.sample.log
        (UserProfile.handleConfirmDelete Outcome.resolved
          (UserProfile.handleDeleteClick samplePost.id UserProfile.sample)).1.log =
      [Effect.deletePost samplePost.id] ∧
    (UserProfile.handleConfirmDelete Outcome.resolved
        (UserProfile.handleDeleteClick samplePost.id UserProfile.sample)).1.deleteDialogOpen =
      false ∧
    (UserProfile.handleConfirmDelete Outcome.resolved
        (UserProfile.handleDeleteClick samplePost.id UserProfile.sample)).1.posts =
      [samplePost, otherPost] ∧
    (Dashboard.handleConfirmDelete Outcome.resolved
        (Dashboard.handleDeleteClick samplePost.id Dashboard.sample)).1.posts =
      [otherPost] := by
  decide

/-- C7 fails in the dashboard: the sample post is selected, the confirmed remote delete
fails, and after the handler has settled the dialog is still open and the target still
selected. The single-post view, on a failing delete, closes its dialog. -/
theorem c7_dashboard_failed_delete_keeps_dialog :
    (Dashboard.handleConfirmDelete Outcome.failed
        (Dashboard.handleDeleteClick samplePost.id Dashboard.sample)).1.deleteDialogOpen =
      true ∧
    (Dashboard.handleConfirmDelete Outcome.failed
        (Dashboard.handleDeleteClick samplePost.id Dashboard.sample)).1.postToDelete =
      some samplePost.id ∧
    (Dashboard.handleConfirmDelete Outcome.failed
        (Dashboard.handleDeleteClick samplePost.id Dashboard.sample)).2 =
      Settled.fulfilled := by
  decide

/-- C8, as stated, fails in the dashboard: with the sample post selected, a first
`handleConfirmDelete` is suspended at its `await` (`deleting = true`); a second invocation
is not ignored, it issues a second remote `deletePost` for the same target. -/
theorem c8_dashboard_second_confirm_issues_delete :
    (Dashboard.handleConfirmDeleteStart
        (Dashboard.handleDeleteClick samplePost.id Dashboard.sample)).1.deleting = true ∧
    (Dashboard.handleConfirmDeleteStart
        (Dashboard.handleConfirmDeleteStart
          (Dashboard.handleDeleteClick samplePost.id Dashboard.sample)).1).2 =
      some samplePost.id ∧
    (Dashboard.handleConfirmDeleteStart
        (Dashboard.handleConfirmDeleteStart
          (Dashboard.handleDeleteClick samplePost.id Dashboard.sample)).1).1.log =
      [Effect.deletePost samplePost.id, Effect.deletePost samplePost.id] := by
  decide

/-- C8, amended: `handleConfirmDelete` has no re-entrancy guard of its own in any view.
Invoked while an earlier invocation is still awaiting its remote delete
(`deleting = true`), it issues another remote `deletePost`: in the three list views for
the target that is still selected, in the single-post view for the bound post; the
rest of the state stays as it is, `deleting` still true. -/
theorem c8_confirm_while_executing_issues_delete (t : PostId) (htr : t.truthy = true)
    (d : Dashboard.State) (a : AllPosts.State) (u : UserProfile.State)
    (sp : SinglePost.State)
    (hd : d.postToDelete = some t) (hdx : d.deleting = true)
    (ha : a.postToDelete = some t) (hax : a.deleting = true)
    (hu : u.postToDelete = some t) (hux : u.deleting = true)
    (hsx : sp.deleting = true) :
    Dashboard.handleConfirmDeleteStart d =
      ({ d with log := d.log ++ [Effect.deletePost t] }, some t) ∧
    AllPosts.handleConfirmDeleteStart a =
      ({ a with log := a.log ++ [Effect.deletePost t] }, some t) ∧
    UserProfile.handleConfirmDeleteStart u =
      ({ u with log := u.log ++ [Effect.deletePost t] }, some t) ∧
    SinglePost.handleConfirmDeleteStart sp =
      { sp with log := sp.log ++ [Effect.deletePost sp.routeId] } := by
  refine ⟨?_, ?_, ?_, ?_⟩
  · simp [Dashboard.handleConfirmDeleteStart, hd, htr, ← hdx]
  · simp [AllPosts.handleConfirmDeleteStart, ha, htr, ← hax]
  · simp [UserProfile.handleConfirmDeleteStart, hu, htr, ← hux]
  · simp [SinglePost.handleConfirmDeleteStart, ← hsx]

/-- Witness of C8 amended: each view with a first confirm suspended at its `await`. -/
theorem c8_confirm_while_executing_issues_delete_witness :
    (Dashboard.handleConfirmDeleteStart
        (Dashboard.handleDeleteClick samplePost.id Dashboard.sample)).1.deleting = true ∧
    Dashboard.handleConfirmDeleteStart
        (Dashboard.handleConfirmDeleteStart
          (Dashboard.handleDeleteClick samplePost.id Dashboard.sample)).1 =
      ({ (Dashboard.handleConfirmDeleteStart
            (Dashboard.handleDeleteClick samplePost.id Dashboard.sample)).1 with
          log := (Dashboard.handleConfirmDeleteStart
            (Dashboard.handleDeleteClick samplePost.id Dashboard.sample)).1.log ++
              [Effect.deletePost samplePost.id] }, some samplePost.id) :=
  ⟨rfl,
   (c8_confirm_while_executing_issues_delete samplePost.id (by decide)
      (Dashboard.handleConfirmDeleteStart
        (Dashboard.handleDeleteClick samplePost.id Dashboard.sample)).1
      (AllPosts.handleConfirmDeleteStart
        (AllPosts.handleDeleteClick samplePost.id AllPosts.sample)).1
      (UserProfile.handleConfirmDeleteStart
        (UserProfile.handleDeleteClick samplePost.id UserProfile.sample)).1
      (SinglePost.handleConfirmDeleteStart (SinglePost.handleDeleteClick SinglePost.sample))
      rfl rfl rfl rfl rfl rfl rfl).1⟩

/-- C9: in every view `handleDeleteClick` opens the dialog (selecting the target where
the view keeps one), and `handleCancelDelete` from there closes it and resets the target
to null; no call of any kind is issued, the displayed collection and the `deleting` flag
are untouched. -/
theorem c9_cancel_returns_to_idle (postId : PostId) (d : Dashboard.State)
    (a : AllPosts.State) (u : UserProfile.State) (sp : SinglePost.State) :
    ((Dashboard.handleDeleteClick postId d).deleteDialogOpen = true ∧
      (Dashboard.handleDeleteClick postId d).postToDelete = some postId ∧
      (Dashboard.handleCancelDelete (Dashboard.handleDeleteClick postId d)).deleteDialogOpen =
        false ∧
      (Dashboard.handleCancelDelete (Dashboard.handleDeleteClick postId d)).postToDelete =
        none ∧
      (Dashboard.handleCancelDelete (Dashboard.handleDeleteClick postId d)).log = d.log ∧
      (Dashboard.handleCancelDelete (Dashboard.handleDeleteClick postId d)).posts = d.posts ∧
      (Dashboard.handleCancelDelete (Dashboard.handleDeleteClick postId d)).deleting =
        d.deleting) ∧
    ((AllPosts.handleDeleteClick postId a).deleteDialogOpen = true ∧
      (AllPosts.handleDeleteClick postId a).postToDelete = some postId ∧
      (AllPosts.handleCancelDelete (AllPosts.handleDeleteClick postId a)).deleteDialogOpen =
        false ∧
      (AllPosts.handleCancelDelete (AllPosts.handleDeleteClick postId a)).postToDelete =
        none ∧
      (AllPosts.handleCancelDelete (AllPosts.handleDeleteClick postId a)).log = a.log ∧
      (AllPosts.handleCancelDelete (AllPosts.handleDeleteClick postId a)).posts = a.posts ∧
      (AllPosts.handleCancelDelete (AllPosts.handleDeleteClick postId a)).deleting =
        a.deleting) ∧
    ((UserProfile.handleDeleteClick postId u).deleteDialogOpen = true ∧
      (UserProfile.handleDeleteClick postId u).postToDelete = some postId ∧
      (UserProfile.handleCancelDelete
        (UserProfile.handleDeleteClick postId u)).deleteDialogOpen = false ∧
      (UserProfile.handleCancelDelete (UserProfile.handleDeleteClick postId u)).postToDelete =
        none ∧
      (UserProfile.handleCancelDelete (UserProfile.handleDeleteClick postId u)).log = u.log ∧
      (UserProfile.handleCancelDelete (UserProfile.handleDeleteClick postId u)).posts =
        u.posts ∧
      (UserProfile.handleCancelDelete (UserProfile.handleDeleteClick postId u)).deleting =
        u.deleting) ∧
    ((SinglePost.handleDeleteClick sp).deleteDialogOpen = true ∧
      (SinglePost.handleCancelDelete (SinglePost.handleDeleteClick sp)).deleteDialogOpen =
        false ∧
      (SinglePost.handleCancelDelete (SinglePost.handleDeleteClick sp)).log = sp.log ∧
      (SinglePost.handleCancelDelete (SinglePost.handleDeleteClick sp)).post = sp.post ∧
      (SinglePost.handleCancelDelete (SinglePost.handleDeleteClick sp)).deleting =
        sp.deleting) := by
  refine ⟨?_, ?_, ?_, ?_⟩
  · simp [Dashboard.handleDeleteClick, Dashboard.handleCancelDelete]
  · simp [AllPosts.handleDeleteClick, AllPosts.handleCancelDelete]
  · simp [UserProfile.handleDeleteClick, UserProfile.handleCancelDelete]
  · simp [SinglePost.handleDeleteClick, SinglePost.handleCancelDelete]

/-- C10, as stated, fails in the dashboard: the sample post is selected, the confirmed
remote delete fails; the failure goes to `console.error` only, and what the dashboard
renders after the handler has settled is what it rendered before the confirm. -/
theorem c10_dashboard_failed_delete_not_rendered :
    issuedSince (Dashboard.handleDeleteClick samplePost.id Dashboard.sample).log
        (Dashboard.handleConfirmDelete Outcome.failed
          (Dashboard.handleDeleteClick samplePost.id Dashboard.sample)).1.log =
      [Effect.deletePost samplePost.id, Effect.consoleError "Delete failed:"] ∧
    Dashboard.render
        (Dashboard.handleConfirmDelete Outcome.failed
          (Dashboard.handleDeleteClick samplePost.id Dashboard.sample)).1 =
      Dashboard.render (Dashboard.handleDeleteClick samplePost.id Dashboard.sample) := by
  decide

/-- C10, amended: when a confirmed delete fails, `handleConfirmDelete` records the failure
with `console.error` only, in every view. In the dashboard and in the profile feed, whose
rendered state is not held by the hook that performs the delete, the view renders after
the handler has settled exactly what it rendered before the confirm. -/
theorem c10_failed_delete_only_logged (t : PostId) (htr : t.truthy = true)
    (d : Dashboard.State) (a : AllPosts.State) (u : UserProfile.State)
    (sp : SinglePost.State)
    (hd : d.postToDelete = some t) (hdx : d.deleting = false)
    (ha : a.postToDelete = some t)
    (hu : u.postToDelete = some t) (hux : u.deleting = false) :
    (issuedSince d.log (Dashboard.handleConfirmDelete Outcome.failed d).1.log =
        [Effect.deletePost t, Effect.consoleError "Delete failed:"] ∧
      Dashboard.render (Dashboard.handleConfirmDelete Outcome.failed d).1 =
        Dashboard.render d) ∧
    (issuedSince u.log (UserProfile.handleConfirmDelete Outcome.failed u).1.log =
        [Effect.deletePost t, Effect.consoleError "Delete failed:"] ∧
      UserProfile.render (UserProfile.handleConfirmDelete Outcome.failed u).1 =
        UserProfile.render u) ∧
    issuedSince a.log (AllPosts.handleConfirmDelete Outcome.failed a).1.log =
      [Effect.deletePost t, Effect.consoleError "Delete failed:"] ∧
    issuedSince sp.log (SinglePost.handleConfirmDelete Outcome.failed sp).1.log =
      [Effect.deletePost sp.routeId, Effect.consoleError "Delete failed:"] := by
  refine ⟨⟨?_, ?_⟩, ⟨?_, ?_⟩, ?_, ?_⟩
  · simp [Dashboard.handleConfirmDelete, Dashboard.handleConfirmDeleteStart,
      Dashboard.handleConfirmDeleteResume, hd, htr, issuedSince_append]
  · simp [Dashboard.handleConfirmDelete, Dashboard.handleConfirmDeleteStart,
      Dashboard.handleConfirmDeleteResume, hd, htr, Dashboard.render, hdx]
  · simp [UserProfile.handleConfirmDelete, UserProfile.handleConfirmDeleteStart,
      UserProfile.handleConfirmDeleteResume, hu, htr, issuedSince_append]
  · simp [UserProfile.handleConfirmDelete, UserProfile.handleConfirmDeleteStart,
      UserProfile.handleConfirmDeleteResume, hu, htr, UserProfile.render, hux]
  · simp [AllPosts.handleConfirmDelete, AllPosts.handleConfirmDeleteStart,
      AllPosts.handleConfirmDeleteResume, ha, htr, issuedSince_append]
  · simp [SinglePost.handleConfirmDelete, SinglePost.handleConfirmDeleteStart,
      SinglePost.handleConfirmDeleteResume, issuedSince_append]

/-- Witness of C10 amended: the sample post selected in each list view. -/
theorem c10_failed_delete_only_logged_witness :
    (PostId.str "p1").truthy = true ∧
    UserProfile.render
        (UserProfile.handleConfirmDelete Outcome.failed
          (UserProfile.handleDeleteClick (PostId.str "p1") UserProfile.sample)).1 =
      UserProfile.render
        (UserProfile.handleDeleteClick (PostId.str "p1") UserProfile.sample) :=
  ⟨by decide,
   (c10_failed_delete_only_logged (PostId.str "p1") (by decide)
      (Dashboard.handleDeleteClick (PostId.str "p1") Dashboard.sample)
      (AllPosts.handleDeleteClick (PostId.str "p1") AllPosts.sample)
      (UserProfile.handleDeleteClick (PostId.str "p1") UserProfile.sample)
      SinglePost.sample rfl rfl rfl rfl rfl).2.1.2⟩

/-! ## Skills and experiences of the alumni draft -/

theorem filter_enumFrom_keep {α : Type} (index : Int) (l : List α) (n : Nat)
    (h : ∀ j : Nat, n ≤ j → j < n + l.length → (j : Int) ≠ index) :
    ((l.enumFrom n).filter (fun p => decide ((p.1 : Int) ≠ index))).map Prod.snd = l := by
  induction l generalizing n with
  | nil => rfl
  | cons a t ih =>
    have h0 : (n : Int) ≠ index := h n (Nat.le_refl n) (by simp)
    have ht : ∀ j : Nat, n + 1 ≤ j → j < n + 1 + t.length → (j : Int) ≠ index := by
      intro j h1 h2
      exact h j (by omega) (by simp only [List.length_cons]; omega)
    simp only [List.enumFrom_cons, List.filter_cons, decide_eq_true h0, if_true,
      List.map_cons, ih (n + 1) ht]

theorem filter_enumFrom_erase {α : Type} (l : List α) (n i : Nat) :
    ((l.enumFrom n).filter (fun p => decide ((p.1 : Int) ≠ ((n + i : Nat) : Int)))).map
      Prod.snd = l.eraseIdx i := by
  induction l generalizing n i with
  | nil => rfl
  | cons a t ih =>
    cases i with
    | zero =>
      have hk := filter_enumFrom_keep ((n + 0 : Nat) : Int) t (n + 1) (by
        intro j h1 _
        omega)
      have hn : decide (((n : Nat) : Int) ≠ ((n + 0 : Nat) : Int)) = false := by simp
      simp only [List.enumFrom_cons, List.filter_cons, hn, Bool.false_eq_true, if_false,
        List.eraseIdx_cons_zero]
      exact hk
    | succ j =>
      have hne : ((n : Nat) : Int) ≠ ((n + (j + 1) : Nat) : Int) := by omega
      have hstep := ih (n + 1) j
      have hidx : n + 1 + j = n + (j + 1) := by omega
      rw [hidx] at hstep
      simp only [List.enumFrom_cons, List.filter_cons, decide_eq_true hne, if_true,
        List.map_cons, hstep, List.eraseIdx_cons_succ]

theorem addSkill_accepts (s : AlumniProfile.State)
    (hx : jsTrim s.newSkill ≠ "")
    (hnone : ∀ k ∈ s.draft.skills, k.name ≠ jsTrim s.newSkill) :
    AlumniProfile.addSkill s =
      { s with draft := { s.draft with
                 skills := s.draft.skills ++ [{ name := jsTrim s.newSkill }] },
               newSkill := "" } := by
  have hfind : (s.draft.skills.find? (fun k => decide (k.name = jsTrim s.newSkill))).isNone
      = true := by
    rw [Option.isNone_iff_eq_none, List.find?_eq_none]
    intro k hk
    simpa using hnone k hk
  unfold AlumniProfile.addSkill
  rw [if_pos ⟨hx, hfind⟩]

theorem addSkill_rejects (s : AlumniProfile.State)
    (h : jsTrim s.newSkill = "" ∨ ∃ k ∈ s.draft.skills, k.name = jsTrim s.newSkill) :
    AlumniProfile.addSkill s = s := by
  unfold AlumniProfile.addSkill
  rw [if_neg]
  rintro ⟨hx, hfind⟩
  rcases h with h | ⟨k, hk, hname⟩
  · exact hx h
  · rw [Option.isNone_iff_eq_none, List.find?_eq_none] at hfind
    exact hfind k hk (by simpa using hname)

/-- C11: for a skill list that holds no skill named `jsTrim x`, with `jsTrim x` not
empty, typing `x` and applying `addSkill`, twice over, yields the same list as doing so
once: the list with `jsTrim x` appended, which holds exactly one skill of that name.
Applying `addSkill` again without retyping changes nothing either. -/
theorem c11_add_skill_twice_is_once (s : AlumniProfile.State) (x : String)
    (hx : jsTrim x ≠ "") (hnone : ∀ k ∈ s.draft.skills, k.name ≠ jsTrim x) :
    (AlumniProfile.addSkill (AlumniProfile.setNewSkill x
        (AlumniProfile.addSkill (AlumniProfile.setNewSkill x s)))).draft.skills =
      (AlumniProfile.addSkill (AlumniProfile.setNewSkill x s)).draft.skills ∧
    (AlumniProfile.addSkill
        (AlumniProfile.addSkill (AlumniProfile.setNewSkill x s))).draft.skills =
      (AlumniProfile.addSkill (AlumniProfile.setNewSkill x s)).draft.skills ∧
    (AlumniProfile.addSkill (AlumniProfile.setNewSkill x s)).draft.skills =
      s.draft.skills ++ [{ name := jsTrim x }] ∧
    ((AlumniProfile.addSkill (AlumniProfile.setNewSkill x s)).draft.skills.filter
        (fun k => decide (k.name = jsTrim x))).length = 1 := by
  have honce : AlumniProfile.addSkill (AlumniProfile.setNewSkill x s) =
      { s with draft := { s.draft with skills := s.draft.skills ++ [{ name := jsTrim x }] },
               newSkill := "" } :=
    addSkill_accepts (AlumniProfile.setNewSkill x s) hx hnone
  have hfilter : s.draft.skills.filter (fun k => decide (k.name = jsTrim x)) = [] := by
    rw [List.filter_eq_nil_iff]
    intro k hk
    simpa using hnone k hk
  refine ⟨?_, ?_, ?_, ?_⟩
  · rw [addSkill_rejects (AlumniProfile.setNewSkill x
        (AlumniProfile.addSkill (AlumniProfile.setNewSkill x s)))]
    · rfl
    · right
      refine ⟨{ name := jsTrim x }, ?_, rfl⟩
      rw [honce]
      simp [AlumniProfile.setNewSkill]
  · rw [addSkill_rejects (AlumniProfile.addSkill (AlumniProfile.setNewSkill x s))]
    left
    rw [honce]
    show jsTrim "" = ""
    decide
  · rw [honce]
  · rw [honce]
    simp [List.filter_append, hfilter]

/-- Witness of C11: `React` typed and added twice on the freshly mounted form leaves
exactly one `React`. -/
theorem c11_add_skill_twice_is_once_witness :
    jsTrim "React" ≠ "" ∧
    (AlumniProfile.addSkill (AlumniProfile.setNewSkill "React"
        (AlumniProfile.addSkill
          (AlumniProfile.setNewSkill "React" AlumniProfile.initial)))).draft.skills =
      (AlumniProfile.addSkill
        (AlumniProfile.setNewSkill "React" AlumniProfile.initial)).draft.skills ∧
    (AlumniProfile.addSkill
        (AlumniProfile.setNewSkill "React" AlumniProfile.initial)).draft.skills =
      AlumniProfile.initial.draft.skills ++ [{ name := jsTrim "React" }] :=
  ⟨by decide,
   (c11_add_skill_twice_is_once AlumniProfile.initial "React" (by decide)
      (by intro k hk; cases hk)).1,
   (c11_add_skill_twice_is_once AlumniProfile.initial "React" (by decide)
      (by intro k hk; cases hk)).2.2.1⟩

/-- C12: `addSkill` on the typed input `x` leaves the skill list unchanged exactly when
`jsTrim x` is empty or some skill already has exactly that name (case-sensitively);
otherwise the result is the list with the skill named `jsTrim x` appended at the end,
the existing skills untouched. `react` is accepted when only `React` is present. -/
theorem c12_add_skill_unchanged_iff (s : AlumniProfile.State) (x : String) :
    ((AlumniProfile.addSkill (AlumniProfile.setNewSkill x s)).draft.skills =
        s.draft.skills ↔
      (jsTrim x = "" ∨ ∃ k ∈ s.draft.skills, k.name = jsTrim x)) ∧
    (¬ (jsTrim x = "" ∨ ∃ k ∈ s.draft.skills, k.name = jsTrim x) →
      (AlumniProfile.addSkill (AlumniProfile.setNewSkill x s)).draft.skills =
        s.draft.skills ++ [{ name := jsTrim x }]) ∧
    (AlumniProfile.addSkill
        (AlumniProfile.setNewSkill "react" AlumniProfile.withReact)).draft.skills =
      [{ name := "React" }, { name := "react" }] := by
  have hacc : ¬ (jsTrim x = "" ∨ ∃ k ∈ s.draft.skills, k.name = jsTrim x) →
      (AlumniProfile.addSkill (AlumniProfile.setNewSkill x s)).draft.skills =
        s.draft.skills ++ [{ name := jsTrim x }] := by
    intro hno
    have hx : jsTrim x ≠ "" := fun h => hno (Or.inl h)
    have hnone : ∀ k ∈ s.draft.skills, k.name ≠ jsTrim x :=
      fun k hk h => hno (Or.inr ⟨k, hk, h⟩)
    rw [addSkill_accepts (AlumniProfile.setNewSkill x s) hx hnone]
    rfl
  refine ⟨⟨?_, ?_⟩, hacc, by decide⟩
  · intro hsame
    by_contra hno
    have hlen := congrArg List.length (hacc hno)
    rw [hsame] at hlen
    simp at hlen
  · intro h
    rw [addSkill_rejects (AlumniProfile.setNewSkill x s) h]
    rfl

/-- Witness of C12: `Rust` is not among the sample skills and is appended. -/
theorem c12_add_skill_unchanged_iff_witness :
    (AlumniProfile.addSkill
        (AlumniProfile.setNewSkill " Rust " AlumniProfile.sample)).draft.skills =
      AlumniProfile.sample.draft.skills ++ [{ name := jsTrim " Rust " }] :=
  (c12_add_skill_unchanged_iff AlumniProfile.sample " Rust ").2.1 (by decide)

/-- C13: `removeSkill(i)` with `0 ≤ i < length` yields the skill list with exactly the
element at position `i` erased: one element fewer, the skills before `i` at their
positions, the skills after `i` one position down. For an index outside that range
(negative, or at least the length) the list is unchanged. -/
theorem c13_remove_skill_erases_index (s : AlumniProfile.State) :
    (∀ i : Nat, i < s.draft.skills.length →
      (AlumniProfile.removeSkill (i : Int) s).draft.skills = s.draft.skills.eraseIdx i ∧
      (AlumniProfile.removeSkill (i : Int) s).draft.skills.length + 1 =
        s.draft.skills.length ∧
      (∀ j : Nat, j < i →
        (AlumniProfile.removeSkill (i : Int) s).draft.skills[j]? = s.draft.skills[j]?) ∧
      (∀ j : Nat, i ≤ j →
        (AlumniProfile.removeSkill (i : Int) s).draft.skills[j]? =
          s.draft.skills[j + 1]?)) ∧
    (∀ index : Int, (index < 0 ∨ (s.draft.skills.length : Int) ≤ index) →
      (AlumniProfile.removeSkill index s).draft.skills = s.draft.skills) := by
  constructor
  · intro i hi
    have herase : (AlumniProfile.removeSkill (i : Int) s).draft.skills =
        s.draft.skills.eraseIdx i := by
      have h := filter_enumFrom_erase s.draft.skills 0 i
      simp only [Nat.zero_add] at h
      exact h
    refine ⟨herase, ?_, ?_, ?_⟩
    · rw [herase, List.length_eraseIdx_of_lt hi]
      omega
    · intro j hj
      rw [herase, List.getElem?_eraseIdx_of_lt _ _ _ hj]
    · intro j hj
      rw [herase, List.getElem?_eraseIdx_of_ge _ _ _ hj]
  · intro index hout
    exact filter_enumFrom_keep index s.draft.skills 0 (by
      intro j _ hj
      omega)

/-- Witness of C13: removing index 1 of `React`, `Lean`, `Go` leaves `React`, `Go`. -/
theorem c13_remove_skill_erases_index_witness :
    (1 : Nat) < AlumniProfile.sample.draft.skills.length ∧
    (AlumniProfile.removeSkill ((1 : Nat) : Int) AlumniProfile.sample).draft.skills =
      AlumniProfile.sample.draft.skills.eraseIdx 1 ∧
    AlumniProfile.sample.draft.skills.eraseIdx 1 = [{ name := "React" }, { name := "Go" }] :=
  ⟨by decide,
   ((c13_remove_skill_erases_index AlumniProfile.sample).1 1 (by decide)).1,
   by decide⟩

/-- C14: removing the Experience entry rendered at a valid index `i` yields the list with
the `i`-th entry erased: one entry fewer, the entries before `i` at their index, the
entries after `i` one index down, each entry with its fields as they were. -/
theorem c14_remove_experience_shifts_down (s : AlumniProfile.State) (i : Nat)
    (hi : i < s.draft.previousExperiences.length) :
    (AlumniProfile.removeExperienceClick i s).draft.previousExperiences =
      s.draft.previousExperiences.eraseIdx i ∧
    (AlumniProfile.removeExperienceClick i s).draft.previousExperiences.length + 1 =
      s.draft.previousExperiences.length ∧
    (∀ j : Nat, j < i →
      (AlumniProfile.removeExperienceClick i s).draft.previousExperiences[j]? =
        s.draft.previousExperiences[j]?) ∧
    (∀ j : Nat, i ≤ j →
      (AlumniProfile.removeExperienceClick i s).draft.previousExperiences[j]? =
        s.draft.previousExperiences[j + 1]?) ∧
    (AlumniProfile.removeExperienceClick i s).draft.skills = s.draft.skills := by
  have herase : (AlumniProfile.removeExperienceClick i s).draft.previousExperiences =
      s.draft.previousExperiences.eraseIdx i := by
    rw [List.eraseIdx_eq_take_drop_succ]
    rfl
  refine ⟨herase, ?_, ?_, ?_, rfl⟩
  · rw [herase, List.length_eraseIdx_of_lt hi]
    omega
  · intro j hj
    rw [herase, List.getElem?_eraseIdx_of_lt _ _ _ hj]
  · intro j hj
    rw [herase, List.getElem?_eraseIdx_of_ge _ _ _ hj]

/-- Witness of C14: removing index 1 of `[A, B, C]` gives `[A, C]`, both unchanged. -/
theorem c14_remove_experience_shifts_down_witness :
    (1 : Nat) < AlumniProfile.sample.draft.previousExperiences.length ∧
    (AlumniProfile.removeExperienceClick 1 AlumniProfile.sample).draft.previousExperiences =
      AlumniProfile.sample.draft.previousExperiences.eraseIdx 1 ∧
    AlumniProfile.sample.draft.previousExperiences.eraseIdx 1 =
      [{ company := "A", position := "engineer", fromYear := "2015", toYear := "2017" },
       { company := "C", position := "manager", fromYear := "2019", toYear := "2021" }] :=
  ⟨by decide,
   (c14_remove_experience_shifts_down AlumniProfile.sample 1 (by decide)).1,
   by decide⟩

/-- C15: the Add Experience action yields the Experience list followed by one new entry
whose `company`, `position`, `from` and `to` are the empty string; the existing entries
keep their index and their fields, and the skills are not touched. -/
theorem c15_add_experience_appends_empty (s : AlumniProfile.State) :
    (AlumniProfile.addExperienceClick s).draft.previousExperiences =
      s.draft.previousExperiences ++
        [{ company := "", position := "", fromYear := "", toYear := "" }] ∧
    (AlumniProfile.addExperienceClick s).draft.previousExperiences.length =
      s.draft.previousExperiences.length + 1 ∧
    (∀ j : Nat, j < s.draft.previousExperiences.length →
      (AlumniProfile.addExperienceClick s).draft.previousExperiences[j]? =
        s.draft.previousExperiences[j]?) ∧
    (AlumniProfile.addExperienceClick s).draft.previousExperiences[
        s.draft.previousExperiences.length]? =
      some { company := "", position := "", fromYear := "", toYear := "" } ∧
    (AlumniProfile.addExperienceClick s).draft.skills = s.draft.skills := by
  have happ : (AlumniProfile.addExperienceClick s).draft.previousExperiences =
      s.draft.previousExperiences ++
        [{ company := "", position := "", fromYear := "", toYear := "" }] := rfl
  refine ⟨happ, ?_, ?_, ?_, rfl⟩
  · rw [happ]
    simp
  · intro j hj
    rw [happ, List.getElem?_append_left hj]
  · rw [happ]
    simp

/-- Witness of C15: a fourth, empty entry after the three sample experiences. -/
theorem c15_add_experience_appends_empty_witness :
    (0 : Nat) < AlumniProfile.sample.draft.previousExperiences.length ∧
    (AlumniProfile.addExperienceClick AlumniProfile.sample).draft.previousExperiences[0]? =
      AlumniProfile.sample.draft.previousExperiences[0]? :=
  ⟨by decide, (c15_add_experience_appends_empty AlumniProfile.sample).2.2.1 0 (by decide)⟩

/-! ## Submitting and loading the profile forms -/

/-- C16: in both profile forms the submit button is disabled exactly when `submitting`
is true or the draft is not dirty. `onSubmit` sets `submitting` before it awaits
`updateUserProfile`, so the button is disabled during the call; the handlers of the
alumni form that can run meanwhile leave `submitting` alone; and once `onSubmit` has
settled, on success or on failure, `submitting` is false again. -/
theorem c16_submit_disabled_and_submitting (a : AlumniProfile.State)
    (st : StudentProfile.State) (da : AlumniProfile.Draft) (ds : StudentProfile.Draft)
    (r : Response ServerUser) (x : String) (index : Int) (i : Nat) :
    ((AlumniProfile.submitDisabled a = true ↔
        (a.submitting = true ∨ AlumniProfile.isDirty a = false)) ∧
      (AlumniProfile.onSubmitStart da a).submitting = true ∧
      AlumniProfile.submitDisabled (AlumniProfile.onSubmitStart da a) = true ∧
      (AlumniProfile.setNewSkill x a).submitting = a.submitting ∧
      (AlumniProfile.addSkill a).submitting = a.submitting ∧
      (AlumniProfile.removeSkill index a).submitting = a.submitting ∧
      (AlumniProfile.addExperienceClick a).submitting = a.submitting ∧
      (AlumniProfile.removeExperienceClick i a).submitting = a.submitting ∧
      (AlumniProfile.onSubmit da r a).1.submitting = false) ∧
    ((StudentProfile.submitDisabled st = true ↔
        (st.submitting = true ∨ StudentProfile.isDirty st = false)) ∧
      (StudentProfile.onSubmitStart ds st).submitting = true ∧
      StudentProfile.submitDisabled (StudentProfile.onSubmitStart ds st) = true ∧
      (StudentProfile.onSubmit ds r st).1.submitting = false) := by
  refine ⟨⟨?_, rfl, ?_, rfl, ?_, rfl, rfl, rfl, ?_⟩, ⟨?_, rfl, ?_, ?_⟩⟩
  · simp [AlumniProfile.submitDisabled]
  · simp [AlumniProfile.submitDisabled, AlumniProfile.onSubmitStart]
  · unfold AlumniProfile.addSkill
    split <;> rfl
  · cases r <;> rfl
  · simp [StudentProfile.submitDisabled]
  · simp [StudentProfile.submitDisabled, StudentProfile.onSubmitStart]
  · cases r <;> rfl

/-- C18: in both profile forms, when the initial `getUserProfile` call fails, `reset` is
not called and the draft is not touched (on the freshly mounted form every field keeps
its empty default), `error` becomes the failure's message or, when that is missing or
empty, `Failed to load profile`, `loading` ends false, and `fetchProfile` is fulfilled:
the failure does not leave it. -/
theorem c18_failed_fetch_keeps_draft (a : AlumniProfile.State) (st : StudentProfile.State)
    (m : Option String) (msg : String) :
    (formIssuedSince a.log (AlumniProfile.fetchProfile (Response.failed m) a).1.log =
        [FormEffect.getUserProfile] ∧
      (AlumniProfile.fetchProfile (Response.failed m) a).1.draft = a.draft ∧
      (AlumniProfile.fetchProfile (Response.failed m) AlumniProfile.initial).1.draft =
        AlumniProfile.defaultValues ∧
      (AlumniProfile.fetchProfile (Response.failed m) a).1.error =
        messageOr m "Failed to load profile" ∧
      (AlumniProfile.fetchProfile (Response.failed m) a).1.loading = false ∧
      (AlumniProfile.fetchProfile (Response.failed m) a).2 = Settled.fulfilled) ∧
    (formIssuedSince st.log (StudentProfile.fetchProfile (Response.failed m) st).1.log =
        [FormEffect.getUserProfile] ∧
      (StudentProfile.fetchProfile (Response.failed m) st).1.draft = st.draft ∧
      (StudentProfile.fetchProfile (Response.failed m) StudentProfile.initial).1.draft =
        StudentProfile.defaultValues ∧
      (StudentProfile.fetchProfile (Response.failed m) st).1.error =
        messageOr m "Failed to load profile" ∧
      (StudentProfile.fetchProfile (Response.failed m) st).1.loading = false ∧
      (StudentProfile.fetchProfile (Response.failed m) st).2 = Settled.fulfilled) ∧
    messageOr none "Failed to load profile" = "Failed to load profile" ∧
    messageOr (some "") "Failed to load profile" = "Failed to load profile" ∧
    messageOr (some msg) "Failed to load profile" =
      (if msg = "" then "Failed to load profile" else msg) := by
  refine ⟨⟨?_, rfl, rfl, rfl, rfl, rfl⟩, ⟨?_, rfl, rfl, rfl, rfl, rfl⟩, rfl, rfl, rfl⟩
  · simp [AlumniProfile.fetchProfile, AlumniProfile.fetchProfileStart,
      AlumniProfile.fetchProfileResume, formIssuedSince]
  · simp [StudentProfile.fetchProfile, StudentProfile.fetchProfileStart,
      StudentProfile.fetchProfileResume, formIssuedSince]

/-- C19: in both profile forms `onSubmit` is always fulfilled. When `updateUserProfile`
fails, nothing but that call is issued (no `updateUser`, no delayed navigation), the
success message stays empty and `error` becomes the failure's message or, when that is
missing or empty, `Failed to update profile`. When it succeeds, `updateUser` is called
with the returned user and `error` is empty. -/
theorem c19_submit_never_propagates (a : AlumniProfile.State) (st : StudentProfile.State)
    (da : AlumniProfile.Draft) (ds : StudentProfile.Draft) (m : Option String)
    (u : ServerUser) (r : Response ServerUser) :
    ((AlumniProfile.onSubmit da r a).2 = Settled.fulfilled ∧
      formIssuedSince a.log (AlumniProfile.onSubmit da (Response.failed m) a).1.log =
        [FormEffect.updateUserProfile da] ∧
      (AlumniProfile.onSubmit da (Response.failed m) a).1.success = "" ∧
      (AlumniProfile.onSubmit da (Response.failed m) a).1.error =
        messageOr m "Failed to update profile" ∧
      formIssuedSince a.log (AlumniProfile.onSubmit da (Response.resolved u) a).1.log =
        [FormEffect.updateUserProfile da, FormEffect.updateUser u,
         FormEffect.navigateAfter 2000 Route.alumniList] ∧
      (AlumniProfile.onSubmit da (Response.resolved u) a).1.error = "") ∧
    ((StudentProfile.onSubmit ds r st).2 = Settled.fulfilled ∧
      formIssuedSince st.log (StudentProfile.onSubmit ds (Response.failed m) st).1.log =
        [FormEffect.updateUserProfile ds] ∧
      (StudentProfile.onSubmit ds (Response.failed m) st).1.success = "" ∧
      (StudentProfile.onSubmit ds (Response.failed m) st).1.error =
        messageOr m "Failed to update profile" ∧
      formIssuedSince st.log (StudentProfile.onSubmit ds (Response.resolved u) st).1.log =
        [FormEffect.updateUserProfile ds, FormEffect.updateUser u,
         FormEffect.navigateAfter 2000 Route.alumniList] ∧
      (StudentProfile.onSubmit ds (Response.resolved u) st).1.error = "") ∧
    messageOr none "Failed to update profile" = "Failed to update profile" ∧
    messageOr (some "") "Failed to update profile" = "Failed to update profile" := by
  refine ⟨⟨?_, ?_, rfl, rfl, ?_, rfl⟩, ⟨?_, ?_, rfl, rfl, ?_, rfl⟩, rfl, rfl⟩
  · cases r <;> rfl
  · simp [AlumniProfile.onSubmit, AlumniProfile.onSubmitStart,
      AlumniProfile.onSubmitResume, formIssuedSince]
  · simp [AlumniProfile.onSubmit, AlumniProfile.onSubmitStart,
      AlumniProfile.onSubmitResume, formIssuedSince]
  · cases r <;> rfl
  · simp [StudentProfile.onSubmit, StudentProfile.onSubmitStart,
      StudentProfile.onSubmitResume, formIssuedSince]
  · simp [StudentProfile.onSubmit, StudentProfile.onSubmitStart,
      StudentProfile.onSubmitResume, formIssuedSince]

/-! ## The remote call of `handleLike`, and `isOwnPost` -/

/-- C17: in every view one `handleLike` invocation, whatever the outcome of its call,
issues exactly one remote call: `unlikePost` when the liked flag it is given (in the
single-post view: the flag of the displayed post) is true, `likePost` when it is false.
In the dashboard, once the call has resolved, `updatePostLikes` is called with the
negation of the flag passed in, and every post of that identity then carries that
negated flag. -/
theorem c17_like_issues_one_call (postId : PostId) (isLiked : Bool) (o : Outcome)
    (d : Dashboard.State) (a : AllPosts.State) (u : UserProfile.State)
    (sp : SinglePost.State) (p : Post) (hp : sp.post = some p) :
    ((issuedSince d.log (Dashboard.handleLike postId isLiked o d).1.log).filter
        Effect.isRemote =
      [if isLiked then Effect.unlikePost postId else Effect.likePost postId]) ∧
    ((issuedSince a.log (AllPosts.handleLike postId isLiked o a).1.log).filter
        Effect.isRemote =
      [if isLiked then Effect.unlikePost postId else Effect.likePost postId]) ∧
    ((issuedSince u.log (UserProfile.handleLike postId isLiked o u).1.log).filter
        Effect.isRemote =
      [if isLiked then Effect.unlikePost postId else Effect.likePost postId]) ∧
    ((issuedSince sp.log (SinglePost.handleLike o sp).1.log).filter Effect.isRemote =
      [if p.isLikedByCurrentUser then Effect.unlikePost sp.routeId
       else Effect.likePost sp.routeId]) ∧
    issuedSince d.log (Dashboard.handleLike postId isLiked Outcome.resolved d).1.log =
      [if isLiked then Effect.unlikePost postId else Effect.likePost postId,
       Effect.updatePostLikes postId (!isLiked)] ∧
    (Dashboard.handleLike postId isLiked Outcome.resolved d).1.posts =
      updatePostLikes postId (!isLiked) d.posts ∧
    (∀ q ∈ (Dashboard.handleLike postId isLiked Outcome.resolved d).1.posts,
      q.id = postId → q.isLikedByCurrentUser = !isLiked) := by
  refine ⟨?_, ?_, ?_, ?_, ?_, ?_, ?_⟩
  · cases isLiked <;> cases o <;>
      simp [Dashboard.handleLike, Dashboard.handleLikeStart, Dashboard.handleLikeResume,
        issuedSince_append, Effect.isRemote]
  · cases isLiked <;> cases o <;>
      simp [AllPosts.handleLike, AllPosts.handleLikeStart, AllPosts.handleLikeResume,
        issuedSince_append, Effect.isRemote]
  · cases isLiked <;> cases o <;>
      simp [UserProfile.handleLike, UserProfile.handleLikeStart,
        UserProfile.handleLikeResume, issuedSince_append, Effect.isRemote]
  · by_cases hl : p.isLikedByCurrentUser = true <;> cases o <;>
      simp [SinglePost.handleLike, SinglePost.handleLikeStart, SinglePost.handleLikeResume,
        hp, hl, issuedSince_append, Effect.isRemote]
  · cases isLiked <;>
      simp [Dashboard.handleLike, Dashboard.handleLikeStart, Dashboard.handleLikeResume,
        issuedSince_append]
  · cases isLiked <;>
      simp [Dashboard.handleLike, Dashboard.handleLikeStart, Dashboard.handleLikeResume]
  · intro q hq hid
    have hposts : (Dashboard.handleLike postId isLiked Outcome.resolved d).1.posts =
        updatePostLikes postId (!isLiked) d.posts := by
      cases isLiked <;>
        simp [Dashboard.handleLike, Dashboard.handleLikeStart, Dashboard.handleLikeResume]
    rw [hposts] at hq
    simp only [updatePostLikes, List.mem_map] at hq
    obtain ⟨q0, _, hq0⟩ := hq
    by_cases h0 : q0.id = postId
    · rw [if_pos h0] at hq0
      rw [← hq0]
    · rw [if_neg h0] at hq0
      rw [hq0] at h0
      exact absurd hid h0

/-- Witness of C17: the sample post, not liked, in each view: one `likePost`. -/
theorem c17_like_issues_one_call_witness :
    SinglePost.sample.post = some samplePost ∧
    (issuedSince SinglePost.sample.log
        (SinglePost.handleLike Outcome.resolved SinglePost.sample).1.log).filter
        Effect.isRemote =
      [if samplePost.isLikedByCurrentUser then Effect.unlikePost SinglePost.sample.routeId
       else Effect.likePost SinglePost.sample.routeId] :=
  ⟨rfl,
   (c17_like_issues_one_call samplePost.id samplePost.isLikedByCurrentUser Outcome.resolved
      Dashboard.sample AllPosts.sample UserProfile.sample SinglePost.sample samplePost
      rfl).2.2.2.1⟩

/-- C20: in the single-post view `isOwnPost`, which is the `showDelete` of the post
detail, is true exactly when somebody is signed in and the post's author identity equals
that user's identity; with nobody signed in it is false for every post. -/
theorem c20_is_own_post_iff_author (post : Post) (user : Option User) :
    (SinglePost.isOwnPost post user = true ↔ ∃ u, user = some u ∧ post.authorId = u.id) ∧
    SinglePost.isOwnPost post none = false := by
  refine ⟨?_, by simp [SinglePost.isOwnPost]⟩
  cases user with
  | none => simp [SinglePost.isOwnPost]
  | some u => simp [SinglePost.isOwnPost]

/-! ## The gate invariant, the guard and the settling of `handleConfirmDelete` -/

theorem dashboard_step_keeps_gate (s : Dashboard.State) (act : Dashboard.Action)
    (h : s.deleteDialogOpen = true ↔ s.postToDelete ≠ none) :
    (Dashboard.step s act).deleteDialogOpen = true ↔
      (Dashboard.step s act).postToDelete ≠ none := by
  cases act with
  | hookData posts postsLoading => exact h
  | openCreatePost => exact h
  | closeCreatePost => exact h
  | createPostStart data => exact h
  | createPostResume r =>
    rcases r with (_ | success) | _
    · exact h
    · cases success
      · exact h
      · exact h
    · exact h
  | likeStart postId isLiked => cases isLiked <;> exact h
  | likeResume postId isLiked o => cases isLiked <;> cases o <;> exact h
  | deleteClick postId => simp [Dashboard.step, Dashboard.handleDeleteClick]
  | confirmDeleteStart =>
    simp only [Dashboard.step, Dashboard.handleConfirmDeleteStart]
    split
    · exact h
    · split <;> exact h
  | confirmDeleteResume t o =>
    cases o
    · simp [Dashboard.step, Dashboard.handleConfirmDeleteResume]
    · exact h
  | cancelDelete => simp [Dashboard.step, Dashboard.handleCancelDelete]

theorem allPosts_step_keeps_gate (s : AllPosts.State) (act : AllPosts.Action)
    (h : s.deleteDialogOpen = true ↔ s.postToDelete ≠ none) :
    (AllPosts.step s act).deleteDialogOpen = true ↔
      (AllPosts.step s act).postToDelete ≠ none := by
  cases act with
  | hookData posts loading error => exact h
  | openCreate => exact h
  | closeCreate => exact h
  | createPostStart data => exact h
  | createPostResume r => cases r <;> exact h
  | likeStart postId isLiked => cases isLiked <;> exact h
  | likeResume postId isLiked o => exact h
  | deleteClick postId => simp [AllPosts.step, AllPosts.handleDeleteClick]
  | confirmDeleteStart =>
    simp only [AllPosts.step, AllPosts.handleConfirmDeleteStart]
    split
    · exact h
    · split <;> exact h
  | confirmDeleteResume t o =>
    cases o
    · simp [AllPosts.step, AllPosts.handleConfirmDeleteResume]
    · exact h
  | cancelDelete => simp [AllPosts.step, AllPosts.handleCancelDelete]

theorem userProfile_step_keeps_gate (s : UserProfile.State) (act : UserProfile.Action)
    (h : s.deleteDialogOpen = true ↔ s.postToDelete ≠ none) :
    (UserProfile.step s act).deleteDialogOpen = true ↔
      (UserProfile.step s act).postToDelete ≠ none := by
  cases act with
  | hookData posts postsLoading postsError loading error => exact h
  | contactClick => exact h
  | closeContact => exact h
  | likeStart postId isLiked => cases isLiked <;> exact h
  | likeResume o => exact h
  | deleteClick postId => simp [UserProfile.step, UserProfile.handleDeleteClick]
  | confirmDeleteStart =>
    simp only [UserProfile.step, UserProfile.handleConfirmDeleteStart]
    split
    · exact h
    · split <;> exact h
  | confirmDeleteResume o =>
    cases o
    · simp [UserProfile.step, UserProfile.handleConfirmDeleteResume]
    · exact h
  | cancelDelete => simp [UserProfile.step, UserProfile.handleCancelDelete]

theorem dashboard_run_keeps_gate (actions : List Dashboard.Action) (s : Dashboard.State)
    (h : s.deleteDialogOpen = true ↔ s.postToDelete ≠ none) :
    (Dashboard.run actions s).deleteDialogOpen = true ↔
      (Dashboard.run actions s).postToDelete ≠ none := by
  induction actions generalizing s with
  | nil => exact h
  | cons act rest ih => exact ih (Dashboard.step s act) (dashboard_step_keeps_gate s act h)

theorem allPosts_run_keeps_gate (actions : List AllPosts.Action) (s : AllPosts.State)
    (h : s.deleteDialogOpen = true ↔ s.postToDelete ≠ none) :
    (AllPosts.run actions s).deleteDialogOpen = true ↔
      (AllPosts.run actions s).postToDelete ≠ none := by
  induction actions generalizing s with
  | nil => exact h
  | cons act rest ih => exact ih (AllPosts.step s act) (allPosts_step_keeps_gate s act h)

theorem userProfile_run_keeps_gate (actions : List UserProfile.Action)
    (s : UserProfile.State)
    (h : s.deleteDialogOpen = true ↔ s.postToDelete ≠ none) :
    (UserProfile.run actions s).deleteDialogOpen = true ↔
      (UserProfile.run actions s).postToDelete ≠ none := by
  induction actions generalizing s with
  | nil => exact h
  | cons act rest ih =>
    exact ih (UserProfile.step s act) (userProfile_step_keeps_gate s act h)

/-- C21: in the dashboard, the full list and the profile feed, every state reached from
the mounted view by any sequence of handler steps (with handlers suspended at their
`await` and resumed in any order) satisfies `deleteDialogOpen = true` exactly when
`postToDelete` is not null; and from any state that satisfies it, every step, among them
`handleDeleteClick`, `handleCancelDelete` and `handleConfirmDelete` on success and on
failure, leads to a state that satisfies it. -/
theorem c21_dialog_open_iff_target (da : List Dashboard.Action)
    (aa : List AllPosts.Action) (ua : List UserProfile.Action) (posts : List Post)
    (loading postsLoading : Bool) (error postsError : Option String)
    (d : Dashboard.State) (a : AllPosts.State) (u : UserProfile.State)
    (dact : Dashboard.Action) (aact : AllPosts.Action) (uact : UserProfile.Action) :
    (((Dashboard.run da (Dashboard.mount posts postsLoading)).deleteDialogOpen = true ↔
        (Dashboard.run da (Dashboard.mount posts postsLoading)).postToDelete ≠ none) ∧
      ((AllPosts.run aa (AllPosts.mount posts loading error)).deleteDialogOpen = true ↔
        (AllPosts.run aa (AllPosts.mount posts loading error)).postToDelete ≠ none) ∧
      ((UserProfile.run ua
          (UserProfile.mount posts postsLoading postsError loading error)).deleteDialogOpen =
            true ↔
        (UserProfile.run ua
          (UserProfile.mount posts postsLoading postsError loading error)).postToDelete ≠
            none)) ∧
    ((d.deleteDialogOpen = true ↔ d.postToDelete ≠ none) →
      ((Dashboard.step d dact).deleteDialogOpen = true ↔
        (Dashboard.step d dact).postToDelete ≠ none)) ∧
    ((a.deleteDialogOpen = true ↔ a.postToDelete ≠ none) →
      ((AllPosts.step a aact).deleteDialogOpen = true ↔
        (AllPosts.step a aact).postToDelete ≠ none)) ∧
    ((u.deleteDialogOpen = true ↔ u.postToDelete ≠ none) →
      ((UserProfile.step u uact).deleteDialogOpen = true ↔
        (UserProfile.step u uact).postToDelete ≠ none)) := by
  refine ⟨⟨?_, ?_, ?_⟩, dashboard_step_keeps_gate d dact, allPosts_step_keeps_gate a aact,
    userProfile_step_keeps_gate u uact⟩
  · exact dashboard_run_keeps_gate da _ (by simp [Dashboard.mount])
  · exact allPosts_run_keeps_gate aa _ (by simp [AllPosts.mount])
  · exact userProfile_run_keeps_gate ua _ (by simp [UserProfile.mount])

/-- Witness of C21: on the sample dashboard a post is selected, its delete confirmed,
a second post selected while the first delete is in flight, and the first delete then
fails; the failing resume step keeps the invariant of the state before it. -/
theorem c21_dialog_open_iff_target_witness :
    ((Dashboard.run
        [Dashboard.Action.deleteClick samplePost.id, Dashboard.Action.confirmDeleteStart,
         Dashboard.Action.deleteClick otherPost.id]
        Dashboard.sample).deleteDialogOpen = true ↔
      (Dashboard.run
        [Dashboard.Action.deleteClick samplePost.id, Dashboard.Action.confirmDeleteStart,
         Dashboard.Action.deleteClick otherPost.id]
        Dashboard.sample).postToDelete ≠ none) ∧
    ((Dashboard.step
        (Dashboard.run
          [Dashboard.Action.deleteClick samplePost.id, Dashboard.Action.confirmDeleteStart,
           Dashboard.Action.deleteClick otherPost.id]
          Dashboard.sample)
        (Dashboard.Action.confirmDeleteResume samplePost.id
          Outcome.failed)).deleteDialogOpen = true ↔
      (Dashboard.step
        (Dashboard.run
          [Dashboard.Action.deleteClick samplePost.id, Dashboard.Action.confirmDeleteStart,
           Dashboard.Action.deleteClick otherPost.id]
          Dashboard.sample)
        (Dashboard.Action.confirmDeleteResume samplePost.id
          Outcome.failed)).postToDelete ≠ none) :=
  ⟨by decide,
   (c21_dialog_open_iff_target [] [] [] [] false false none none
      (Dashboard.run
        [Dashboard.Action.deleteClick samplePost.id, Dashboard.Action.confirmDeleteStart,
         Dashboard.Action.deleteClick otherPost.id]
        Dashboard.sample)
      AllPosts.sample UserProfile.sample
      (Dashboard.Action.confirmDeleteResume samplePost.id Outcome.failed)
      AllPosts.Action.cancelDelete UserProfile.Action.cancelDelete).2.1 (by decide)⟩

/-- C22, as stated, fails in the dashboard: the sample post is selected and its delete
confirmed twice before either remote delete settles; the first delete then fails, its
`finally` resets `deleting`, and `deleting` is false while the second remote delete is
still awaited (two deletes issued, one settled). -/
theorem c22_dashboard_first_settle_resets_deleting :
    (Dashboard.run
        [Dashboard.Action.deleteClick samplePost.id, Dashboard.Action.confirmDeleteStart,
         Dashboard.Action.confirmDeleteStart,
         Dashboard.Action.confirmDeleteResume samplePost.id Outcome.failed]
        Dashboard.sample).log =
      [Effect.deletePost samplePost.id, Effect.deletePost samplePost.id,
       Effect.consoleError "Delete failed:"] ∧
    (Dashboard.run
        [Dashboard.Action.deleteClick samplePost.id, Dashboard.Action.confirmDeleteStart,
         Dashboard.Action.confirmDeleteStart]
        Dashboard.sample).deleting = true ∧
    (Dashboard.run
        [Dashboard.Action.deleteClick samplePost.id, Dashboard.Action.confirmDeleteStart,
         Dashboard.Action.confirmDeleteStart,
         Dashboard.Action.confirmDeleteResume samplePost.id Outcome.failed]
        Dashboard.sample).deleting = false := by
  decide

/-- C22, amended: in every view `handleConfirmDelete` is fulfilled whatever the outcome
of the remote delete: the failure does not leave the handler. With a target selected (in
the single-post view: always) `deleting` is set to true when the remote delete is
issued; no step other than a settling `handleConfirmDelete` makes it false again; and a
settling `handleConfirmDelete` makes it false, on success and on failure alike. So
`deleting` is true throughout the await as long as no other confirm settles meanwhile. -/
theorem c22_deleting_until_a_confirm_settles (t : PostId) (htr : t.truthy = true)
    (o : Outcome) (d : Dashboard.State) (a : AllPosts.State) (u : UserProfile.State)
    (sp : SinglePost.State) (hd : d.postToDelete = some t) (ha : a.postToDelete = some t)
    (hu : u.postToDelete = some t)
    (dact : Dashboard.Action) (aact : AllPosts.Action) (uact : UserProfile.Action)
    (t2 : PostId) (isLiked : Bool) (d2 : Dashboard.State) (a2 : AllPosts.State)
    (u2 : UserProfile.State) :
    ((Dashboard.handleConfirmDeleteStart d).2 = some t ∧
      (Dashboard.handleConfirmDeleteStart d).1.deleting = true ∧
      (Dashboard.handleConfirmDelete o d).2 = Settled.fulfilled ∧
      (Dashboard.handleConfirmDelete o d).1.deleting = false ∧
      (Dashboard.handleConfirmDeleteResume t2 o d2).1.deleting = false ∧
      ((∀ t3 o3, dact ≠ Dashboard.Action.confirmDeleteResume t3 o3) →
        d2.deleting = true → (Dashboard.step d2 dact).deleting = true)) ∧
    ((AllPosts.handleConfirmDeleteStart a).2 = some t ∧
      (AllPosts.handleConfirmDeleteStart a).1.deleting = true ∧
      (AllPosts.handleConfirmDelete o a).2 = Settled.fulfilled ∧
      (AllPosts.handleConfirmDelete o a).1.deleting = false ∧
      (AllPosts.handleConfirmDeleteResume t2 o a2).1.deleting = false ∧
      ((∀ t3 o3, aact ≠ AllPosts.Action.confirmDeleteResume t3 o3) →
        a2.deleting = true → (AllPosts.step a2 aact).deleting = true)) ∧
    ((UserProfile.handleConfirmDeleteStart u).2 = some t ∧
      (UserProfile.handleConfirmDeleteStart u).1.deleting = true ∧
      (UserProfile.handleConfirmDelete o u).2 = Settled.fulfilled ∧
      (UserProfile.handleConfirmDelete o u).1.deleting = false ∧
      (UserProfile.handleConfirmDeleteResume o u2).1.deleting = false ∧
      ((∀ o3, uact ≠ UserProfile.Action.confirmDeleteResume o3) →
        u2.deleting = true → (UserProfile.step u2 uact).deleting = true)) ∧
    ((SinglePost.handleConfirmDeleteStart sp).deleting = true ∧
      (SinglePost.handleConfirmDeleteStart sp).log =
        sp.log ++ [Effect.deletePost sp.routeId] ∧
      (SinglePost.handleConfirmDelete o sp).2 = Settled.fulfilled ∧
      (SinglePost.handleConfirmDelete o sp).1.deleting = false ∧
      (SinglePost.handleConfirmDeleteResume o sp).1.deleting = false ∧
      (SinglePost.handleDeleteClick sp).deleting = sp.deleting ∧
      (SinglePost.handleCancelDelete sp).deleting = sp.deleting ∧
      (SinglePost.handleLikeResume isLiked o sp).1.deleting = sp.deleting ∧
      (∀ s1, SinglePost.handleLikeStart sp = some s1 → s1.deleting = sp.deleting)) := by
  refine ⟨⟨?_, ?_, ?_, ?_, ?_, ?_⟩, ⟨?_, ?_, ?_, ?_, ?_, ?_⟩, ⟨?_, ?_, ?_, ?_, ?_, ?_⟩,
    ⟨rfl, rfl, ?_, ?_, ?_, rfl, rfl, rfl, ?_⟩⟩
  · simp [Dashboard.handleConfirmDeleteStart, hd, htr]
  · simp [Dashboard.handleConfirmDeleteStart, hd, htr]
  · cases o <;>
      simp [Dashboard.handleConfirmDelete, Dashboard.handleConfirmDeleteStart,
        Dashboard.handleConfirmDeleteResume, hd, htr]
  · cases o <;>
      simp [Dashboard.handleConfirmDelete, Dashboard.handleConfirmDeleteStart,
        Dashboard.handleConfirmDeleteResume, hd, htr]
  · cases o <;> rfl
  · intro hne hdel
    cases dact with
    | hookData posts postsLoading => exact hdel
    | openCreatePost => exact hdel
    | closeCreatePost => exact hdel
    | createPostStart data => exact hdel
    | createPostResume r =>
      rcases r with (_ | success) | _
      · exact hdel
      · cases success <;> exact hdel
      · exact hdel
    | likeStart postId liked => cases liked <;> exact hdel
    | likeResume postId liked o2 => cases liked <;> cases o2 <;> exact hdel
    | deleteClick postId => exact hdel
    | confirmDeleteStart =>
      simp only [Dashboard.step, Dashboard.handleConfirmDeleteStart]
      split
      · exact hdel
      · split
        · rfl
        · exact hdel
    | confirmDeleteResume t3 o3 => exact absurd rfl (hne t3 o3)
    | cancelDelete => exact hdel
  · simp [AllPosts.handleConfirmDeleteStart, ha, htr]
  · simp [AllPosts.handleConfirmDeleteStart, ha, htr]
  · cases o <;>
      simp [AllPosts.handleConfirmDelete, AllPosts.handleConfirmDeleteStart,
        AllPosts.handleConfirmDeleteResume, ha, htr]
  · cases o <;>
      simp [AllPosts.handleConfirmDelete, AllPosts.handleConfirmDeleteStart,
        AllPosts.handleConfirmDeleteResume, ha, htr]
  · cases o <;> rfl
  · intro hne hdel
    cases aact with
    | hookData posts loading error => exact hdel
    | openCreate => exact hdel
    | closeCreate => exact hdel
    | createPostStart data => exact hdel
    | createPostResume r => cases r <;> exact hdel
    | likeStart postId liked => cases liked <;> exact hdel
    | likeResume postId liked o2 => exact hdel
    | deleteClick postId => exact hdel
    | confirmDeleteStart =>
      simp only [AllPosts.step, AllPosts.handleConfirmDeleteStart]
      split
      · exact hdel
      · split
        · rfl
        · exact hdel
    | confirmDeleteResume t3 o3 => exact absurd rfl (hne t3 o3)
    | cancelDelete => exact hdel
  · simp [UserProfile.handleConfirmDeleteStart, hu, htr]
  · simp [UserProfile.handleConfirmDeleteStart, hu, htr]
  · cases o <;>
      simp [UserProfile.handleConfirmDelete, UserProfile.handleConfirmDeleteStart,
        UserProfile.handleConfirmDeleteResume, hu, htr]
  · cases o <;>
      simp [UserProfile.handleConfirmDelete, UserProfile.handleConfirmDeleteStart,
        UserProfile.handleConfirmDeleteResume, hu, htr]
  · cases o <;> rfl
  · intro hne hdel
    cases uact with
    | hookData posts postsLoading postsError loading error => exact hdel
    | contactClick => exact hdel
    | closeContact => exact hdel
    | likeStart postId liked => cases liked <;> exact hdel
    | likeResume o2 => exact hdel
    | deleteClick postId => exact hdel
    | confirmDeleteStart =>
      simp only [UserProfile.step, UserProfile.handleConfirmDeleteStart]
      split
      · exact hdel
      · split
        · rfl
        · exact hdel
    | confirmDeleteResume o3 => exact absurd rfl (hne o3)
    | cancelDelete => exact hdel
  · cases o <;> rfl
  · cases o <;> rfl
  · cases o <;> rfl
  · intro s1 hs1
    unfold SinglePost.handleLikeStart at hs1
    split at hs1
    · cases hs1
    · split at hs1 <;>
        · cases hs1
          rfl

/-- Witness of C22 amended: the sample post selected in the full list, the remote delete
failing; and on the dashboard, with a confirm in flight, selecting another post leaves
`deleting` true. -/
theorem c22_deleting_until_a_confirm_settles_witness :
    (PostId.str "p1").truthy = true ∧
    (AllPosts.handleConfirmDeleteStart
        (AllPosts.handleDeleteClick (PostId.str "p1") AllPosts.sample)).1.deleting = true ∧
    (AllPosts.handleConfirmDelete Outcome.failed
        (AllPosts.handleDeleteClick (PostId.str "p1") AllPosts.sample)).2 =
      Settled.fulfilled ∧
    (AllPosts.handleConfirmDelete Outcome.failed
        (AllPosts.handleDeleteClick (PostId.str "p1") AllPosts.sample)).1.deleting = false ∧
    (Dashboard.step
        (Dashboard.handleConfirmDeleteStart
          (Dashboard.handleDeleteClick (PostId.str "p1") Dashboard.sample)).1
        (Dashboard.Action.deleteClick otherPost.id)).deleting = true :=
  ⟨by decide,
   (c22_deleting_until_a_confirm_settles (PostId.str "p1") (by decide) Outcome.failed
      (Dashboard.handleDeleteClick (PostId.str "p1") Dashboard.sample)
      (AllPosts.handleDeleteClick (PostId.str "p1") AllPosts.sample)
      (UserProfile.handleDeleteClick (PostId.str "p1") UserProfile.sample)
      SinglePost.sample rfl rfl rfl
      (Dashboard.Action.deleteClick otherPost.id) AllPosts.Action.cancelDelete
      UserProfile.Action.cancelDelete (PostId.str "p1") false
      (Dashboard.handleConfirmDeleteStart
        (Dashboard.handleDeleteClick (PostId.str "p1") Dashboard.sample)).1
      AllPosts.sample UserProfile.sample).2.1.2.1,
   (c22_deleting_until_a_confirm_settles (PostId.str "p1") (by decide) Outcome.failed
      (Dashboard.handleDeleteClick (PostId.str "p1") Dashboard.sample)
      (AllPosts.handleDeleteClick (PostId.str "p1") AllPosts.sample)
      (UserProfile.handleDeleteClick (PostId.str "p1") UserProfile.sample)
      SinglePost.sample rfl rfl rfl
      (Dashboard.Action.deleteClick otherPost.id) AllPosts.Action.cancelDelete
      UserProfile.Action.cancelDelete (PostId.str "p1") false
      (Dashboard.handleConfirmDeleteStart
        (Dashboard.handleDeleteClick (PostId.str "p1") Dashboard.sample)).1
      AllPosts.sample UserProfile.sample).2.1.2.2.1,
   (c22_deleting_until_a_confirm_settles (PostId.str "p1") (by decide) Outcome.failed
      (Dashboard.handleDeleteClick (PostId.str "p1") Dashboard.sample)
      (AllPosts.handleDeleteClick (PostId.str "p1") AllPosts.sample)
      (UserProfile.handleDeleteClick (PostId.str "p1") UserProfile.sample)
      SinglePost.sample rfl rfl rfl
      (Dashboard.Action.deleteClick otherPost.id) AllPosts.Action.cancelDelete
      UserProfile.Action.cancelDelete (PostId.str "p1") false
      (Dashboard.handleConfirmDeleteStart
        (Dashboard.handleDeleteClick (PostId.str "p1") Dashboard.sample)).1
      AllPosts.sample UserProfile.sample).2.1.2.2.2.1,
   (c22_deleting_until_a_confirm_settles (PostId.str "p1") (by decide) Outcome.failed
      (Dashboard.handleDeleteClick (PostId.str "p1") Dashboard.sample)
      (AllPosts.handleDeleteClick (PostId.str "p1") AllPosts.sample)
      (UserProfile.handleDeleteClick (PostId.str "p1") UserProfile.sample)
      SinglePost.sample rfl rfl rfl
      (Dashboard.Action.deleteClick otherPost.id) AllPosts.Action.cancelDelete
      UserProfile.Action.cancelDelete (PostId.str "p1") false
      (Dashboard.handleConfirmDeleteStart
        (Dashboard.handleDeleteClick (PostId.str "p1") Dashboard.sample)).1
      AllPosts.sample UserProfile.sample).1.2.2.2.2.2
        (by intro t3 o3 h; cases h) rfl⟩

/-- C23: in the three list views `handleConfirmDelete` invoked with no selected target,
or with a selected identity that is falsy (`0` or the empty string), returns at once:
it issues no call and leaves the whole state, `deleting`, `deleteDialogOpen`,
`postToDelete` and the collection included, as it is. -/
theorem c23_confirm_without_target_is_noop (o : Outcome) (d : Dashboard.State)
    (a : AllPosts.State) (u : UserProfile.State)
    (hd : d.postToDelete = none ∨ ∃ t, d.postToDelete = some t ∧ t.truthy = false)
    (ha : a.postToDelete = none ∨ ∃ t, a.postToDelete = some t ∧ t.truthy = false)
    (hu : u.postToDelete = none ∨ ∃ t, u.postToDelete = some t ∧ t.truthy = false) :
    (Dashboard.handleConfirmDeleteStart d = (d, none) ∧
      Dashboard.handleConfirmDelete o d = (d, Settled.fulfilled)) ∧
    (AllPosts.handleConfirmDeleteStart a = (a, none) ∧
      AllPosts.handleConfirmDelete o a = (a, Settled.fulfilled)) ∧
    (UserProfile.handleConfirmDeleteStart u = (u, none) ∧
      UserProfile.handleConfirmDelete o u = (u, Settled.fulfilled)) ∧
    (PostId.num 0).truthy = false ∧ (PostId.str "").truthy = false := by
  refine ⟨?_, ?_, ?_, by decide, by decide⟩
  · rcases hd with h | ⟨t, h, hf⟩
    · simp [Dashboard.handleConfirmDelete, Dashboard.handleConfirmDeleteStart, h]
    · simp [Dashboard.handleConfirmDelete, Dashboard.handleConfirmDeleteStart, h, hf]
  · rcases ha with h | ⟨t, h, hf⟩
    · simp [AllPosts.handleConfirmDelete, AllPosts.handleConfirmDeleteStart, h]
    · simp [AllPosts.handleConfirmDelete, AllPosts.handleConfirmDeleteStart, h, hf]
  · rcases hu with h | ⟨t, h, hf⟩
    · simp [UserProfile.handleConfirmDelete, UserProfile.handleConfirmDeleteStart, h]
    · simp [UserProfile.handleConfirmDelete, UserProfile.handleConfirmDeleteStart, h, hf]

/-- Witness of C23: the dashboard with the falsy identity `0` selected, the other two
views with no target. -/
theorem c23_confirm_without_target_is_noop_witness :
    (Dashboard.handleDeleteClick (PostId.num 0) Dashboard.sample).postToDelete =
      some (PostId.num 0) ∧
    Dashboard.handleConfirmDelete Outcome.resolved
        (Dashboard.handleDeleteClick (PostId.num 0) Dashboard.sample) =
      (Dashboard.handleDeleteClick (PostId.num 0) Dashboard.sample, Settled.fulfilled) ∧
    AllPosts.handleConfirmDelete Outcome.resolved AllPosts.sample =
      (AllPosts.sample, Settled.fulfilled) :=
  ⟨rfl,
   (c23_confirm_without_target_is_noop Outcome.resolved
      (Dashboard.handleDeleteClick (PostId.num 0) Dashboard.sample) AllPosts.sample
      UserProfile.sample (Or.inr ⟨PostId.num 0, rfl, by decide⟩) (Or.inl rfl)
      (Or.inl rfl)).1.2,
   (c23_confirm_without_target_is_noop Outcome.resolved
      (Dashboard.handleDeleteClick (PostId.num 0) Dashboard.sample) AllPosts.sample
      UserProfile.sample (Or.inr ⟨PostId.num 0, rfl, by decide⟩) (Or.inl rfl)
      (Or.inl rfl)).2.1.2⟩

/-- C24: in the single-post view `handleConfirmDelete` navigates to the post list
exactly when the remote `deletePost` resolved (and navigates nowhere otherwise); in both
outcomes the confirmation dialog ends closed and `deleting` ends false. -/
theorem c24_single_post_navigates_iff_deleted (o : Outcome) (sp : SinglePost.State) :
    (Effect.navigate Route.allPosts ∈
        issuedSince sp.log (SinglePost.handleConfirmDelete o sp).1.log ↔
      o = Outcome.resolved) ∧
    (o = Outcome.failed →
      ∀ route, Effect.navigate route ∉
        issuedSince sp.log (SinglePost.handleConfirmDelete o sp).1.log) ∧
    (SinglePost.handleConfirmDelete o sp).1.deleteDialogOpen = false ∧
    (SinglePost.handleConfirmDelete o sp).1.deleting = false := by
  cases o <;>
    simp [SinglePost.handleConfirmDelete, SinglePost.handleConfirmDeleteStart,
      SinglePost.handleConfirmDeleteResume, issuedSince_append]

/-- Witness of C24: the sample single-post view, the remote delete failing: nothing is
navigated to. -/
theorem c24_single_post_navigates_iff_deleted_witness :
    ∀ route, Effect.navigate route ∉
      issuedSince SinglePost.sample.log
        (SinglePost.handleConfirmDelete Outcome.failed SinglePost.sample).1.log :=
  (c24_single_post_navigates_iff_deleted Outcome.failed SinglePost.sample).2.1 rfl

/-! ## The create-post modal -/

/-- C25: both `handleCreatePost` handlers issue `createPost(data)` and nothing else. In
the dashboard the open modal is closed exactly when `createPost` resolves with a result
whose `success` is truthy; otherwise it stays as it was. In the full list the open modal
is closed exactly when `createPost` resolves, whatever the result; it stays as it was,
and the handler rejects, when `createPost` throws. -/
theorem c25_create_post_closes_modal (data : PostDraft) (r : CreateResponse)
    (d : Dashboard.State) (a : AllPosts.State) :
    (issuedSince d.log (Dashboard.handleCreatePost data r d).1.log =
        [Effect.createPost data] ∧
      (Dashboard.handleCreatePost data r d).1.createPostOpen =
        (if r = CreateResponse.resolved (some true) then false else d.createPostOpen) ∧
      (d.createPostOpen = true →
        ((Dashboard.handleCreatePost data r d).1.createPostOpen = false ↔
          r = CreateResponse.resolved (some true)))) ∧
    (issuedSince a.log (AllPosts.handleCreatePost data r a).1.log =
        [Effect.createPost data] ∧
      (AllPosts.handleCreatePost data r a).1.createModalOpen =
        (if r = CreateResponse.failed then a.createModalOpen else false) ∧
      (a.createModalOpen = true →
        ((AllPosts.handleCreatePost data r a).1.createModalOpen = false ↔
          r ≠ CreateResponse.failed)) ∧
      ((AllPosts.handleCreatePost data r a).2 = Settled.rejected ↔
        r = CreateResponse.failed)) := by
  refine ⟨?_, ?_⟩
  · rcases r with (_ | success) | _
    · simp [Dashboard.handleCreatePost, Dashboard.handleCreatePostStart,
        Dashboard.handleCreatePostResume, issuedSince_append]
    · cases success <;>
        simp [Dashboard.handleCreatePost, Dashboard.handleCreatePostStart,
          Dashboard.handleCreatePostResume, issuedSince_append]
    · simp [Dashboard.handleCreatePost, Dashboard.handleCreatePostStart,
        Dashboard.handleCreatePostResume, issuedSince_append]
  · cases r <;>
      simp [AllPosts.handleCreatePost, AllPosts.handleCreatePostStart,
        AllPosts.handleCreatePostResume, issuedSince_append]

/-- Witness of C25: the create-post modal open on the sample dashboard, `createPost`
resolving with `success` false: the modal is not closed. -/
theorem c25_create_post_closes_modal_witness :
    (Dashboard.handleOpenCreatePost Dashboard.sample).createPostOpen = true ∧
    ((Dashboard.handleCreatePost { body := "hello" } (CreateResponse.resolved (some false))
        (Dashboard.handleOpenCreatePost Dashboard.sample)).1.createPostOpen = false ↔
      CreateResponse.resolved (some false) = CreateResponse.resolved (some true)) :=
  ⟨rfl,
   (c25_create_post_closes_modal { body := "hello" } (CreateResponse.resolved (some false))
      (Dashboard.handleOpenCreatePost Dashboard.sample) AllPosts.sample).1.2.2 rfl⟩

end PostViews
